import Mathlib

/-!
Verification development for the Sony Audio Control integration
(`src/sony_client.py`, `src/settings_cache.py`, `src/remote_entity.py`,
`src/driver.py`).

The Python code is shallowly embedded as executable Lean functions.
Python strings are modelled as `List Char`; the Python string operations
used by the source (`in`, `startswith`, `endswith`, `split`, `rsplit`,
`replace`, `upper`, `lower`, slicing and indexing) are reimplemented
below with Python semantics on that representation.  JSON dictionaries
coming from the device are modelled as structures whose fields are
`Option`-valued (a missing key is `none`); `dict.get(k, d)` becomes
`Option.getD`.  The async RPC transport is modelled by an oracle
(`DeviceR`) giving each endpoint's response; a raised exception is an
`Except.error`.  Every RPC issued is logged as a `Call` value so that
statements about which calls a code path performs are expressible.
Numeric setting values (Python floats holding device dB levels and
ranges) are modelled as rationals.
-/

namespace Sony

/-- Python strings as lists of characters. -/
abbrev Str := List Char

/-- Convert a Lean string literal to the `Str` representation. -/
def s2l (s : String) : Str := s.toList

/-- Python `s.startswith(pat)`: `pre pat s`. -/
def pre : Str → Str → Bool
  | [], _ => true
  | _ :: _, [] => false
  | a :: as, b :: bs => a == b && pre as bs

/-- Python `s.endswith(pat)`: `suf pat s`. -/
def suf (pat s : Str) : Bool := pre pat.reverse s.reverse

/-- Split at the first occurrence of `sep`: returns the part before and
the part after the first occurrence, or `none` when `sep` does not occur. -/
def splitFirst (sep : Str) : Str → Option (Str × Str)
  | [] => if sep.isEmpty then some ([], []) else none
  | c :: rest =>
    if pre sep (c :: rest) then some ([], (c :: rest).drop sep.length)
    else
      match splitFirst sep rest with
      | some (p, q) => some (c :: p, q)
      | none => none

/-- Python `pat in s` (substring containment). -/
def sub (pat s : Str) : Bool := (splitFirst pat s).isSome

/-- Python `s.split(sep)[0]`: the part before the first occurrence of
`sep`, or all of `s` when `sep` does not occur. -/
def beforeFirst (sep s : Str) : Str :=
  match splitFirst sep s with
  | some (p, _) => p
  | none => s

/-- Python `s.replace(old, new)` with bounded fuel; replacement scans
left to right over non-overlapping occurrences, continuing after each
replaced occurrence. -/
def pyReplaceMax (old new : Str) : Nat → Str → Str
  | 0, s => s
  | n + 1, s =>
    match splitFirst old s with
    | none => s
    | some (p, q) => p ++ new ++ pyReplaceMax old new n q

/-- Python `s.replace(old, new)` for non-empty `old`: `s.length` fuel is
enough because each occurrence consumes at least one character. -/
def pyReplace (old new s : Str) : Str := pyReplaceMax old new s.length s

/-- Python `s.upper()` (ASCII, which covers the device vocabulary). -/
def upper (s : Str) : Str := s.map Char.toUpper

/-- Python `s.lower()` (ASCII). -/
def lower (s : Str) : Str := s.map Char.toLower

/-- Python `s.replace(a, b)` for single characters `a`, `b`. -/
def mapRepl (a b : Char) (s : Str) : Str :=
  s.map (fun c => if c == a then b else c)

/-- Python `s[n]` as an option (an out-of-range index raises IndexError,
modelled as `none`). -/
def pyAt : Str → Nat → Option Char
  | [], _ => none
  | c :: _, 0 => some c
  | _ :: rest, n + 1 => pyAt rest n

/-- Python `s.rsplit(ch, 1)[0]`: everything before the last occurrence
of `ch`, or all of `s` when `ch` does not occur. -/
def beforeLast (ch : Char) (s : Str) : Str :=
  match splitFirst [ch] s.reverse with
  | some (_, q) => q.reverse
  | none => s

/-- Python `str(n)` for a natural number. -/
def natStr (n : Nat) : Str := Nat.toDigits 10 n

/-- Python `int(c)` on a single character: its digit value, `none` when
the character is not an ASCII digit (`int` raises ValueError). -/
def charDigit (c : Char) : Option Nat :=
  if c.isDigit then some (c.toNat - 48) else none

/-- Value of an all-digit string, `none` otherwise. -/
def digitsVal (s : Str) : Option Nat :=
  match s with
  | [] => none
  | ds =>
    if ds.all Char.isDigit then
      some (ds.foldl (fun a c => a * 10 + (c.toNat - 48)) 0)
    else none

/-- Python `float(s)` restricted to plain decimal literals
(optional sign, digits, optional fractional digits) — the only forms the
device reports for speaker levels.  `none` models ValueError. -/
def parseDec (s : Str) : Option ℚ :=
  let core : Str → Option ℚ := fun t =>
    match splitFirst (s2l ".") t with
    | none => (digitsVal t).map (fun n => (n : ℚ))
    | some (ip, fp) =>
      match digitsVal ip, digitsVal fp with
      | some i, some f => some ((i : ℚ) + (f : ℚ) / ((10 : ℚ) ^ fp.length))
      | _, _ => none
  match s with
  | '-' :: t => (core t).map Neg.neg
  | '+' :: t => core t
  | t => core t

/-! ## Data model

JSON objects returned by the device, as used by `settings_cache.py` and
`remote_entity.py`.  A field is `none` when the key is absent. -/

/-- One entry of a setting's `candidate` list. -/
structure Candidate where
  value : Option Str
  title : Option Str
  isAvailable : Option Bool
  min : Option ℚ
  max : Option ℚ
  step : Option ℚ
deriving DecidableEq, Repr

/-- One discovered setting (`getSoundSettings` / `getSpeakerSettings`
result entry). -/
structure Setting where
  target : Option Str
  type : Option Str
  title : Option Str
  isAvailable : Option Bool
  currentValue : Option Str
  candidate : Option (List Candidate)
deriving DecidableEq, Repr

/-- One volume-information record; only the `mute` key is ever read. -/
structure VolRecord where
  mute : Option Str
deriving DecidableEq, Repr

/-- One input source dictionary; only the `source` and `title` keys are
ever read by the embedded code. -/
structure Source where
  source : Option Str
  title : Option Str
deriving DecidableEq, Repr

/-- A generic JSON object (association list), for results whose content
the embedded code never inspects (device info and the like). -/
abbrev Obj := List (Str × Str)

/-- `SonyApiError` (device-reported RPC error) or a transport failure
(`aiohttp.ClientError` / timeout). -/
inductive ApiErr where
  | protocolError (code : Int) (message : Str)
  | transportError
deriving DecidableEq, Repr

/-- Descriptor of one RPC issued to the device, named after the wire
method.  `refreshSettings` is the marker for the dispatcher invoking
`settings_cache.refresh()` (whose own calls are modelled by
`DeviceSettingsCache.refresh` below). -/
inductive Call where
  | getSystemInformation
  | getInterfaceInformation
  | getPowerStatus
  | setPowerStatus (status : Str)
  | getVersions (service : Str)
  | getVolumeInformation (zone : Str)
  | setAudioVolume (zone volume : Str)
  | setAudioMute (zone mute : Str)
  | getSoundSettings (target : Str)
  | setSoundSettings (target value : Str)
  | getSpeakerSettings (target : Str)
  | setSpeakerSettings (target : Str) (value : ℚ)
  | getCustomEqualizerSettings (target : Str)
  | getSchemeList
  | getSourceList (scheme : Str)
  | getPlayingContentInfo (zone : Str)
  | setPlayContent (zone uri : Str)
  | getCurrentExternalTerminalsStatus (output : Str)
  | setActiveTerminal (status uri : Str)
  | refreshSettings
deriving DecidableEq, Repr

/-- Oracle giving the device's response to each endpoint; a field holding
`Except.error` models a raised exception for that call. -/
structure DeviceR where
  systemInformationR : Except ApiErr Obj
  interfaceInformationR : Except ApiErr Obj
  powerStatusR : Except ApiErr Str
  setPowerStatusR : Str → Except ApiErr Unit
  versionsR : Str → Except ApiErr (List Str)
  volumeInformationR : Str → Except ApiErr (List VolRecord)
  setAudioVolumeR : Str → Str → Except ApiErr Unit
  setAudioMuteR : Str → Str → Except ApiErr Unit
  soundSettingsR : Str → Except ApiErr (List Setting)
  setSoundSettingsR : Str → Str → Except ApiErr Unit
  speakerSettingsR : Str → Except ApiErr (List Setting)
  setSpeakerSettingsR : Str → ℚ → Except ApiErr Unit
  equalizerSettingsR : Str → Except ApiErr (List Setting)
  schemeListR : Except ApiErr (List Obj)
  sourceListR : Str → Except ApiErr (List Source)
  playingContentInfoR : Str → Except ApiErr (List Obj)
  setPlayContentR : Str → Str → Except ApiErr Unit
  externalTerminalsStatusR : Str → Except ApiErr (List Obj)
  setActiveTerminalR : Str → Str → Except ApiErr Unit
  refreshR : Except ApiErr Unit

/-! ## RPC client (`sony_client.py`, class `SonyAudioDevice`)

Each client method is a function of the oracle returning its (possibly
failing) result together with the list of RPCs it issues.  The only
instance state the Python methods touch is `self._device_info`, modelled
by `ClientState`; `get_device_info` and `connect` are therefore the only
methods taking and returning a `ClientState`. -/

/-- The mutable state of one `SonyAudioDevice` instance relevant to the
embedded methods: the `_device_info` cache. -/
structure ClientState where
  device_info : Option Obj
deriving DecidableEq, Repr

/-- `SonyAudioDevice.get_device_info`: fetch on first call, then serve
the cached value. -/
def get_device_info (st : ClientState) (dev : DeviceR) :
    ClientState × Except ApiErr Obj × List Call :=
  match st.device_info with
  | some i => (st, .ok i, [])
  | none =>
    match dev.systemInformationR with
    | .ok i => (⟨some i⟩, .ok i, [.getSystemInformation])
    | .error e => (st, .error e, [.getSystemInformation])

/-- `SonyAudioDevice.connect`: issue the device-info call; any success is
a connection, any failure is not. -/
def connect (st : ClientState) (dev : DeviceR) : ClientState × Bool × List Call :=
  match get_device_info st dev with
  | (st2, .ok _, cs) => (st2, true, cs)
  | (st2, .error _, cs) => (st2, false, cs)

/-- `SonyAudioDevice.get_interface_info`. -/
def get_interface_info (dev : DeviceR) : Except ApiErr Obj × List Call :=
  (dev.interfaceInformationR, [.getInterfaceInformation])

/-- `SonyAudioDevice.get_power_status`. -/
def get_power_status (dev : DeviceR) : Except ApiErr Str × List Call :=
  (dev.powerStatusR, [.getPowerStatus])

/-- `SonyAudioDevice.set_power_status`. -/
def set_power_status (dev : DeviceR) (status : Str) : Except ApiErr Unit × List Call :=
  (dev.setPowerStatusR status, [.setPowerStatus status])

/-- `SonyAudioDevice.get_versions`. -/
def get_versions (dev : DeviceR) (service : Str) : Except ApiErr (List Str) × List Call :=
  (dev.versionsR service, [.getVersions service])

/-- `SonyAudioDevice.get_volume_info`. -/
def get_volume_info (dev : DeviceR) (zone : Str) :
    Except ApiErr (List VolRecord) × List Call :=
  (dev.volumeInformationR zone, [.getVolumeInformation zone])

/-- `SonyAudioDevice.set_volume` (the volume is already a string, as in
the relative form `"+1"` the dispatcher uses). -/
def set_volume (dev : DeviceR) (volume zone : Str) : Except ApiErr Unit × List Call :=
  (dev.setAudioVolumeR zone volume, [.setAudioVolume zone volume])

/-- `SonyAudioDevice.set_mute`. -/
def set_mute (dev : DeviceR) (mute : Bool) (zone : Str) : Except ApiErr Unit × List Call :=
  let ms := if mute then s2l "on" else s2l "off"
  (dev.setAudioMuteR zone ms, [.setAudioMute zone ms])

/-- `SonyAudioDevice.get_sound_settings`. -/
def get_sound_settings (dev : DeviceR) (target : Str) :
    Except ApiErr (List Setting) × List Call :=
  (dev.soundSettingsR target, [.getSoundSettings target])

/-- `SonyAudioDevice.set_sound_setting`. -/
def set_sound_setting (dev : DeviceR) (target value : Str) :
    Except ApiErr Unit × List Call :=
  (dev.setSoundSettingsR target value, [.setSoundSettings target value])

/-- `SonyAudioDevice.get_speaker_settings`. -/
def get_speaker_settings (dev : DeviceR) (target : Str) :
    Except ApiErr (List Setting) × List Call :=
  (dev.speakerSettingsR target, [.getSpeakerSettings target])

/-- `SonyAudioDevice.set_speaker_level` (the float-to-string conversion
at the transport boundary is not modelled). -/
def set_speaker_level (dev : DeviceR) (target : Str) (value : ℚ) :
    Except ApiErr Unit × List Call :=
  (dev.setSpeakerSettingsR target value, [.setSpeakerSettings target value])

/-- `SonyAudioDevice.get_equalizer_settings`. -/
def get_equalizer_settings (dev : DeviceR) (target : Str) :
    Except ApiErr (List Setting) × List Call :=
  (dev.equalizerSettingsR target, [.getCustomEqualizerSettings target])

/-- `SonyAudioDevice.get_scheme_list`. -/
def get_scheme_list (dev : DeviceR) : Except ApiErr (List Obj) × List Call :=
  (dev.schemeListR, [.getSchemeList])

/-- `SonyAudioDevice.get_source_list`. -/
def get_source_list (dev : DeviceR) (scheme : Str) :
    Except ApiErr (List Source) × List Call :=
  (dev.sourceListR scheme, [.getSourceList scheme])

/-- `SonyAudioDevice.get_playing_content_info`. -/
def get_playing_content_info (dev : DeviceR) (zone : Str) :
    Except ApiErr (List Obj) × List Call :=
  (dev.playingContentInfoR zone, [.getPlayingContentInfo zone])

/-- `SonyAudioDevice.switch_input`. -/
def switch_input (dev : DeviceR) (uri zone : Str) : Except ApiErr Unit × List Call :=
  (dev.setPlayContentR zone uri, [.setPlayContent zone uri])

/-- `SonyAudioDevice.get_external_terminals_status`. -/
def get_external_terminals_status (dev : DeviceR) (output : Str) :
    Except ApiErr (List Obj) × List Call :=
  (dev.externalTerminalsStatusR output, [.getCurrentExternalTerminalsStatus output])

/-- `SonyAudioDevice.set_active_terminal`. -/
def set_active_terminal (dev : DeviceR) (uri : Str) (active : Bool) :
    Except ApiErr Unit × List Call :=
  let status := if active then s2l "active" else s2l "inactive"
  (dev.setActiveTerminalR uri status, [.setActiveTerminal status uri])

/-- The zone output URI built by the zone-qualified client helpers:
`extOutput:zone?zone=<n>`. -/
def zoneUri (zone : Nat) : Str := s2l "extOutput:zone?zone=" ++ natStr zone

/-- `SonyAudioDevice.get_zone_volume`: `result[0] if result else {}`. -/
def get_zone_volume (dev : DeviceR) (zone : Nat) :
    Except ApiErr VolRecord × List Call :=
  match get_volume_info dev (zoneUri zone) with
  | (.ok l, cs) => (.ok (match l with | [] => ⟨none⟩ | r :: _ => r), cs)
  | (.error e, cs) => (.error e, cs)

/-- `SonyAudioDevice.set_zone_volume`. -/
def set_zone_volume (dev : DeviceR) (zone : Nat) (volume : Str) :
    Except ApiErr Unit × List Call :=
  set_volume dev volume (zoneUri zone)

/-- `SonyAudioDevice.set_zone_mute`. -/
def set_zone_mute (dev : DeviceR) (zone : Nat) (mute : Bool) :
    Except ApiErr Unit × List Call :=
  set_mute dev mute (zoneUri zone)

/-! ## Capability cache (`settings_cache.py`, class `DeviceSettingsCache`) -/

/-- The mutable fields of a `DeviceSettingsCache` instance.  The
`last_refresh` timestamp (`datetime.now()`) is modelled as a natural
number supplied by the caller. -/
structure CacheState where
  sound_settings : List Setting
  speaker_settings : List Setting
  zones : List Nat
  last_refresh : Option Nat
deriving DecidableEq, Repr

/-- `DeviceSettingsCache.__init__`: all caches start empty. -/
def initCache : CacheState := ⟨[], [], [], none⟩

namespace DeviceSettingsCache

/-- One probe of `_discover_zones`: the zone is kept iff the volume-info
query for its output URI succeeds with a non-empty list; a raised
exception is swallowed and the zone skipped. -/
def probeZone (dev : DeviceR) (n : Nat) : Bool :=
  match (get_volume_info dev (zoneUri n)).1 with
  | .ok l => !l.isEmpty
  | .error _ => false

/-- `DeviceSettingsCache._discover_zones`: zone 1 unconditionally, then
probe zones 2 and 3.  Also returns the RPCs issued (both probes are
always attempted). -/
def discover_zones (dev : DeviceR) : List Nat × List Call :=
  ([1] ++ (if probeZone dev 2 then [2] else []) ++ (if probeZone dev 3 then [3] else []),
   (get_volume_info dev (zoneUri 2)).2 ++ (get_volume_info dev (zoneUri 3)).2)

/-- `DeviceSettingsCache.refresh`: the three discovery steps assign the
instance fields one after the other; an exception propagates (`some`
error) leaving every field assigned so far in place.  Returns the state
after the call, the RPCs issued, and the propagated error if any. -/
def refresh (st : CacheState) (dev : DeviceR) (now : Nat) :
    CacheState × List Call × Option ApiErr :=
  match get_sound_settings dev (s2l "") with
  | (.error e, cs) => (st, cs, some e)
  | (.ok ss, cs) =>
    let st1 := { st with sound_settings := ss }
    match get_speaker_settings dev (s2l "") with
    | (.error e, cs2) => (st1, cs ++ cs2, some e)
    | (.ok sp, cs2) =>
      let st2 := { st1 with speaker_settings := sp }
      let z := discover_zones dev
      ({ st2 with zones := z.1, last_refresh := some now }, cs ++ cs2 ++ z.2, none)

/-- `DeviceSettingsCache.get_setting_by_target`: linear search over the
sound settings, then the speaker settings. -/
def get_setting_by_target (st : CacheState) (target : Str) : Option Setting :=
  match st.sound_settings.find? (fun s => s.target == some target) with
  | some s => some s
  | none => st.speaker_settings.find? (fun s => s.target == some target)

/-- `DeviceSettingsCache.get_available_sound_field_values`: the
`soundField` setting's candidates filtered to available, as
`(value, title)` pairs (`title` defaults to the value). -/
def get_available_sound_field_values (st : CacheState) : List (Str × Str) :=
  match get_setting_by_target st (s2l "soundField") with
  | none => []
  | some sf =>
    ((sf.candidate.getD []).filter (fun c => c.isAvailable.getD true)).map
      (fun c => let v := c.value.getD []; (v, c.title.getD v))

/-- `DeviceSettingsCache.get_available_boolean_settings`: every
boolean/enum sound setting that is available, with all its candidate
values taken verbatim. -/
def get_available_boolean_settings (st : CacheState) : List (Str × Str × List Str) :=
  (st.sound_settings.filter
      (fun s => (s.type == some (s2l "booleanTarget") || s.type == some (s2l "enumTarget"))
        && s.isAvailable.getD true)).map
    (fun s =>
      let t := s.target.getD []
      (t, s.title.getD t, (s.candidate.getD []).map (fun c => c.value.getD [])))

/-- `DeviceSettingsCache.get_available_speaker_controls` over a list of
speaker settings: every available `doubleNumberTarget` as
`(target, title, min, max, step)` with defaults `(-10, 10, 0.5)`.
`setting.get("candidate", [{}])[0]` raises IndexError when the setting
carries an explicit empty candidate list — modelled as `none`. -/
def get_available_speaker_controls :
    List Setting → Option (List (Str × Str × ℚ × ℚ × ℚ))
  | [] => some []
  | s :: rest =>
    if !(s.type == some (s2l "doubleNumberTarget")) then
      get_available_speaker_controls rest
    else if !(s.isAvailable.getD true) then
      get_available_speaker_controls rest
    else
      match s.candidate with
      | some [] => none
      | cand =>
        let c : Candidate :=
          match cand with
          | some (c :: _) => c
          | _ => ⟨none, none, none, none, none, none⟩
        let t := s.target.getD []
        (get_available_speaker_controls rest).map
          (fun l =>
            (t, s.title.getD t, c.min.getD (-10), c.max.getD 10, c.step.getD (1 / 2)) :: l)

/-- `DeviceSettingsCache.get_current_value`. -/
def get_current_value (st : CacheState) (target : Str) : Option Str :=
  match get_setting_by_target st target with
  | some s => s.currentValue
  | none => none

/-- `DeviceSettingsCache.validate_setting_value`: the target must exist
and the value must appear among its candidates' `value` fields. -/
def validate_setting_value (st : CacheState) (target value : Str) : Bool :=
  match get_setting_by_target st target with
  | none => false
  | some s => ((s.candidate.getD []).map (fun c => c.value)).contains (some value)

end DeviceSettingsCache

/-! ## Command namespace compiler (`remote_entity.py`) -/

/-- `source_uri.split("port=")[1].split("&")[0]`: the HDMI port text of
a source URI (meaningful under the guard `"port=" in uri`). -/
def portToken (uri : Str) : Str :=
  match splitFirst (s2l "port=") uri with
  | none => []
  | some (_, rest) => beforeFirst (s2l "&") (beforeFirst (s2l "port=") rest)

/-- `source_uri.split("extInput:")[1].split("?")[0]`: the labeled input
name of a source URI (meaningful under `uri.startswith("extInput:")`). -/
def labeledName (uri : Str) : Str :=
  match splitFirst (s2l "extInput:") uri with
  | none => []
  | some (_, rest) => beforeFirst (s2l "?") (beforeFirst (s2l "extInput:") rest)

/-- `input_name.upper().replace("-", "_").replace(" ", "_")`. -/
def foldName (name : Str) : Str := mapRepl ' ' '_' (mapRepl '-' '_' (upper name))

/-- The per-source `INPUT_*` encoding branch of `create_simple_commands`
(lines 159-187 of `remote_entity.py`): the command appended for a given
source URI, or `none` when the URI is empty or matches no branch. -/
def encodeInputCommand (uri : Str) : Option Str :=
  if uri.isEmpty then none
  else if sub (s2l "hdmi") uri && sub (s2l "port=") uri then
    some (s2l "INPUT_HDMI" ++ portToken uri)
  else if sub (s2l "tv") uri || uri == s2l "extInput:tv" then some (s2l "INPUT_TV")
  else if sub (s2l "btAudio") uri then some (s2l "INPUT_BLUETOOTH")
  else if sub (s2l "line") uri then some (s2l "INPUT_ANALOG")
  else if sub (s2l "airPlay") uri then some (s2l "INPUT_AIRPLAY")
  else if sub (s2l "usb") uri then some (s2l "INPUT_USB")
  else if pre (s2l "extInput:") uri then
    some (s2l "INPUT_" ++ foldName (labeledName uri))
  else none

/-- The fixed base commands of `create_simple_commands`. -/
def baseCommands : List Str :=
  [s2l "POWER_ON", s2l "POWER_OFF", s2l "POWER_TOGGLE",
   s2l "VOLUME_UP", s2l "VOLUME_DOWN",
   s2l "MUTE_ON", s2l "MUTE_OFF", s2l "MUTE_TOGGLE"]

/-- `target.replace("Level", "").replace("level", "")`: the friendly
speaker name stem used by both the compiler and the dispatcher. -/
def stripLevel (target : Str) : Str :=
  pyReplace (s2l "level") [] (pyReplace (s2l "Level") [] target)

/-- `create_simple_commands`: base commands, then sound-field commands,
boolean/enum setting commands, speaker level commands, zone commands,
input commands, and `REFRESH_SETTINGS`.  `none` when the speaker-control
derivation raises (see `get_available_speaker_controls`). -/
def create_simple_commands (sources : List Source) (st : CacheState) :
    Option (List Str) :=
  (DeviceSettingsCache.get_available_speaker_controls st.speaker_settings).map
    (fun spk =>
      baseCommands
      ++ (DeviceSettingsCache.get_available_sound_field_values st).map
          (fun p => s2l "SOUND_FIELD_" ++ upper p.1)
      ++ (DeviceSettingsCache.get_available_boolean_settings st).flatMap
          (fun t => t.2.2.map
            (fun v => s2l "SOUND_" ++ upper t.1 ++ s2l "_" ++ upper v))
      ++ spk.flatMap (fun c =>
          let base := s2l "SPEAKER_" ++ upper (stripLevel c.1)
          [base ++ s2l "_UP", base ++ s2l "_DOWN"])
      ++ st.zones.flatMap (fun z =>
          [s2l "ZONE" ++ natStr z ++ s2l "_VOLUME_UP",
           s2l "ZONE" ++ natStr z ++ s2l "_VOLUME_DOWN",
           s2l "ZONE" ++ natStr z ++ s2l "_MUTE_TOGGLE"]
          ++ (if 1 < z then
                [s2l "ZONE" ++ natStr z ++ s2l "_ACTIVATE",
                 s2l "ZONE" ++ natStr z ++ s2l "_DEACTIVATE"]
              else []))
      ++ sources.filterMap (fun s => encodeInputCommand (s.source.getD []))
      ++ [s2l "REFRESH_SETTINGS"])

/-- `command.replace("INPUT_", "").replace("_", "-").lower()`: the
candidate labeled-input name reconstructed by the decoder. -/
def decodeLabeledName (command : Str) : Str :=
  lower (mapRepl '_' '-' (pyReplace (s2l "INPUT_") [] command))

/-- The per-source branch chain of `get_input_uri_from_command`: does
this source match the command?  Mirrors the if/elif chain exactly: the
first branch whose guard holds decides, so an HDMI-prefixed command
whose port check fails does not fall through to the labeled branch. -/
def inputMatches (command uri : Str) : Bool :=
  if command == s2l "INPUT_TV" && sub (s2l "tv") uri then true
  else if pre (s2l "INPUT_HDMI") command && sub (s2l "hdmi") uri
      && sub (s2l "port=") uri then
    sub (s2l "port=" ++ pyReplace (s2l "INPUT_HDMI") [] command) uri
  else if command == s2l "INPUT_BLUETOOTH" && sub (s2l "btAudio") uri then true
  else if command == s2l "INPUT_ANALOG" && sub (s2l "line") uri then true
  else if command == s2l "INPUT_AIRPLAY" && sub (s2l "airPlay") uri then true
  else if command == s2l "INPUT_USB" && sub (s2l "usb") uri then true
  else if pre (s2l "INPUT_") command && pre (s2l "extInput:") uri then
    uri == s2l "extInput:" ++ decodeLabeledName command
  else false

/-- `get_input_uri_from_command`: first source in the list matching the
command, or `none`. -/
def get_input_uri_from_command (command : Str) : List Source → Option Str
  | [] => none
  | s :: rest =>
    if inputMatches command (s.source.getD []) then some (s.source.getD [])
    else get_input_uri_from_command command rest

/-! ## Command dispatcher (`driver.py`, `cmd_handler`, SEND_CMD path)

`cmd_handler`'s `SEND_CMD` branch is embedded as `sendCmd`.  A dispatch
returns the `ucapi.StatusCodes` outcome together with the list of RPCs
issued, in order.  The surrounding `try`/`except` turns any raised
exception (a `SonyApiError` or anything else) into `SERVER_ERROR`;
execution stops at the first failing call, which is still logged since
the request was issued. -/

/-- The `ucapi.StatusCodes` values the handler returns. -/
inductive Status where
  | ok
  | badRequest
  | serverError
  | notImplemented
deriving DecidableEq, Repr

/-- Run one client call: on success continue with `k` (prepending the
issued RPCs), on exception abort with `SERVER_ERROR` (the failed call
was still issued). -/
def run1 {α : Type} (rc : Except ApiErr α × List Call) (k : α → Status × List Call) :
    Status × List Call :=
  match rc.1 with
  | .ok a => ((k a).1, rc.2 ++ (k a).2)
  | .error _ => (.serverError, rc.2)

/-- The `for _ in range(repeat): await device.set_volume(delta)` loop of
the `VOLUME_UP` / `VOLUME_DOWN` branches. -/
def volLoop (dev : DeviceR) (delta : Str) : Nat → Status × List Call
  | 0 => (.ok, [])
  | n + 1 => run1 (set_volume dev delta (s2l "")) (fun _ => volLoop dev delta n)

/-- The shared validate-then-set tail of the `SOUND_*` and `SYSTEM_*`
branches: `validate_setting_value` gates the `set_sound_setting` RPC;
a failing validation is `BAD_REQUEST` with no call issued. -/
def validateAndSet (st : CacheState) (dev : DeviceR) (target value : Str) :
    Status × List Call :=
  if DeviceSettingsCache.validate_setting_value st target value then
    run1 (set_sound_setting dev target value) (fun _ => (.ok, []))
  else (.badRequest, [])

/-- The `SOUND_*` branch of `cmd_handler` (lines 434-463):
`SOUND_FIELD_<V>` resolves to target `soundField`; otherwise
`command.split("_", 2)` must yield three parts giving `(target, value)`
(both lower-cased); fewer parts fall through to the final `return OK`. -/
def soundCmd (command : Str) (st : CacheState) (dev : DeviceR) : Status × List Call :=
  if pre (s2l "SOUND_FIELD_") command then
    validateAndSet st dev (s2l "soundField")
      (lower (pyReplace (s2l "SOUND_FIELD_") [] command))
  else
    match splitFirst (s2l "_") command with
    | none => (.ok, [])
    | some (_, r1) =>
      match splitFirst (s2l "_") r1 with
      | none => (.ok, [])
      | some (p1, p2) => validateAndSet st dev (lower p1) (lower p2)

/-- The loop body of the `SPEAKER_*` branch (lines 481-509): find the
first speaker control whose stripped upper-cased target equals the
command's speaker name, read the cached current value, step it, issue
`set_speaker_level`, then `settings_cache.refresh()`. -/
def speakerLoop (speaker_name : Str) (st : CacheState) (dev : DeviceR) (up : Bool) :
    List (Str × Str × ℚ × ℚ × ℚ) → Status × List Call
  | [] => (.badRequest, [])
  | (target, _, lo, hi, stp) :: rest =>
    if upper (stripLevel target) == speaker_name then
      match DeviceSettingsCache.get_current_value st target with
      | none => (.serverError, [])
      | some cv =>
        match parseDec cv with
        | none => (.serverError, [])
        | some c =>
          let v := if up then min (c + stp) hi else max (c - stp) lo
          run1 (set_speaker_level dev target v)
            (fun _ => run1 (dev.refreshR, [Call.refreshSettings]) (fun _ => (.ok, [])))
    else speakerLoop speaker_name st dev up rest

/-- The `SPEAKER_*` branch of `cmd_handler` (lines 466-509). -/
def speakerCmd (command : Str) (st : CacheState) (dev : DeviceR) : Status × List Call :=
  if !(suf (s2l "_UP") command || suf (s2l "_DOWN") command) then (.badRequest, [])
  else
    let up := suf (s2l "_UP") command
    let speaker_name := beforeLast '_' (command.drop 8)
    match DeviceSettingsCache.get_available_speaker_controls st.speaker_settings with
    | none => (.serverError, [])
    | some controls => speakerLoop speaker_name st dev up controls

/-- The `try` prelude of the `ZONE*` branch: `zone = int(command[4])`
and `cmd_type = command[6:]`; an IndexError or ValueError is `none`
(caught and turned into `BAD_REQUEST`). -/
def zoneParse (command : Str) : Option (Nat × Str) :=
  match pyAt command 4 with
  | none => none
  | some ch => (charDigit ch).map (fun d => (d, command.drop 6))

/-- The dispatch of one parsed zone command: reject zones not in the
cache's zone list, then act on `cmd_type`.  `ACTIVATE` and `DEACTIVATE`
are dispatched for any known zone, the main zone included. -/
def zoneExec (zone : Nat) (cmd_type : Str) (st : CacheState) (dev : DeviceR) :
    Status × List Call :=
  if !(st.zones.contains zone) then (.badRequest, [])
  else if cmd_type == s2l "VOLUME_UP" then
    run1 (set_zone_volume dev zone (s2l "+1")) (fun _ => (.ok, []))
  else if cmd_type == s2l "VOLUME_DOWN" then
    run1 (set_zone_volume dev zone (s2l "-1")) (fun _ => (.ok, []))
  else if cmd_type == s2l "MUTE_TOGGLE" then
    run1 (get_zone_volume dev zone) (fun r =>
      run1 (set_zone_mute dev zone (r.mute.getD (s2l "off") == s2l "off"))
        (fun _ => (.ok, [])))
  else if cmd_type == s2l "ACTIVATE" then
    run1 (set_active_terminal dev (zoneUri zone) true) (fun _ => (.ok, []))
  else if cmd_type == s2l "DEACTIVATE" then
    run1 (set_active_terminal dev (zoneUri zone) false) (fun _ => (.ok, []))
  else (.badRequest, [])

/-- The `ZONE*` branch of `cmd_handler` (lines 512-548). -/
def zoneCmd (command : Str) (st : CacheState) (dev : DeviceR) : Status × List Call :=
  match zoneParse command with
  | none => (.badRequest, [])
  | some (zone, cmd_type) => zoneExec zone cmd_type st dev

/-- The fixed `value_map` of the `SYSTEM_HDMI_OUTPUT_*` branch
(line 566): `{"a": "hdmi_A", "b": "hdim_B", "ab": "hdmi_AB",
"off": "off"}`, other values passed through. -/
def hdmiValueMap (v : Str) : Str :=
  if v == s2l "a" then s2l "hdmi_A"
  else if v == s2l "b" then s2l "hdim_B"
  else if v == s2l "ab" then s2l "hdmi_AB"
  else if v == s2l "off" then s2l "off"
  else v

/-- The `SYSTEM_*` branch of `cmd_handler` (lines 552-577). -/
def systemCmd (command : Str) (st : CacheState) (dev : DeviceR) : Status × List Call :=
  if pre (s2l "SYSTEM_DIMMER_") command then
    validateAndSet st dev (s2l "dimmer")
      (lower (pyReplace (s2l "SYSTEM_DIMMER_") [] command))
  else if pre (s2l "SYSTEM_HDMI_OUTPUT_") command then
    validateAndSet st dev (s2l "hdmiOutput")
      (hdmiValueMap (lower (pyReplace (s2l "SYSTEM_HDMI_OUTPUT_") [] command)))
  else (.badRequest, [])

/-- The `INPUT_*` branch of `cmd_handler` (lines 579-588). -/
def inputCmd (command : Str) (sources : List Source) (dev : DeviceR) :
    Status × List Call :=
  match get_input_uri_from_command command sources with
  | some uri => run1 (switch_input dev uri (s2l "")) (fun _ => (.ok, []))
  | none => (.badRequest, [])

/-- The resolved `(target, value)` pair of a `SOUND_*` / `SYSTEM_*`
command, exactly as the corresponding dispatcher branches compute it
before validating; `none` when the branch resolves no pair. -/
def resolvePair (command : Str) : Option (Str × Str) :=
  if pre (s2l "SOUND_FIELD_") command then
    some (s2l "soundField", lower (pyReplace (s2l "SOUND_FIELD_") [] command))
  else if pre (s2l "SOUND_") command then
    match splitFirst (s2l "_") command with
    | none => none
    | some (_, r1) =>
      match splitFirst (s2l "_") r1 with
      | none => none
      | some (p1, p2) => some (lower p1, lower p2)
  else if pre (s2l "SYSTEM_DIMMER_") command then
    some (s2l "dimmer", lower (pyReplace (s2l "SYSTEM_DIMMER_") [] command))
  else if pre (s2l "SYSTEM_HDMI_OUTPUT_") command then
    some (s2l "hdmiOutput",
      hdmiValueMap (lower (pyReplace (s2l "SYSTEM_HDMI_OUTPUT_") [] command)))
  else none

/-- `cmd_handler`'s `SEND_CMD` dispatch (lines 383-594) on a non-empty
command string.  `rpt` is `params.get("repeat", 1)`; `entityOff` is
whether the entity's state attribute equals `States.OFF`; `cache` is
`device_settings_caches.get(entity.id)` and `sources` is
`device_sources.get(entity.id, [])`. -/
def sendCmd (command : Str) (rpt : Nat) (entityOff : Bool) (cache : Option CacheState)
    (sources : List Source) (dev : DeviceR) : Status × List Call :=
  if command == s2l "POWER_ON" then
    run1 (set_power_status dev (s2l "active")) (fun _ => (.ok, []))
  else if command == s2l "POWER_OFF" then
    run1 (set_power_status dev (s2l "standby")) (fun _ => (.ok, []))
  else if command == s2l "POWER_TOGGLE" then
    let status := if entityOff then s2l "active" else s2l "standby"
    run1 (set_power_status dev status) (fun _ => (.ok, []))
  else if command == s2l "VOLUME_UP" then volLoop dev (s2l "+1") rpt
  else if command == s2l "VOLUME_DOWN" then volLoop dev (s2l "-1") rpt
  else if command == s2l "MUTE_ON" then
    run1 (set_mute dev true (s2l "")) (fun _ => (.ok, []))
  else if command == s2l "MUTE_OFF" then
    run1 (set_mute dev false (s2l "")) (fun _ => (.ok, []))
  else if command == s2l "MUTE_TOGGLE" then
    run1 (get_volume_info dev (s2l "")) (fun l =>
      match l with
      | [] => (.ok, [])
      | r :: _ =>
        let current_mute := r.mute.getD (s2l "off")
        run1 (set_mute dev (current_mute == s2l "off") (s2l "")) (fun _ => (.ok, [])))
  else if command == s2l "REFRESH_SETTINGS" then
    match cache with
    | some _ => run1 (dev.refreshR, [Call.refreshSettings]) (fun _ => (.ok, []))
    | none => (.ok, [])
  else if pre (s2l "SOUND_") command then
    match cache with
    | none => (.serverError, [])
    | some st => soundCmd command st dev
  else if pre (s2l "SPEAKER_") command then
    match cache with
    | none => (.serverError, [])
    | some st => speakerCmd command st dev
  else if pre (s2l "ZONE") command then
    match cache with
    | none => (.serverError, [])
    | some st => zoneCmd command st dev
  else if pre (s2l "SYSTEM_") command then
    match cache with
    | none => (.serverError, [])
    | some st => systemCmd command st dev
  else if pre (s2l "INPUT_") command then inputCmd command sources dev
  else (.badRequest, [])

/-- `clamp(x, lo, hi)` as the specification states it: the value forced
into `[lo, hi]` from both sides.  Modelled from the spec (the dispatcher
itself clamps one-sidedly); used to compare the two. -/
def clampQ (x lo hi : ℚ) : ℚ := max lo (min x hi)

/-! ## String lemmas -/

lemma pre_append (l m : Str) : pre l (l ++ m) = true := by
  induction l with
  | nil => rfl
  | cons c cs ih => simp [pre, ih]

lemma pre_iff {l s : Str} : pre l s = true ↔ ∃ t, s = l ++ t := by
  induction l generalizing s with
  | nil => simp [pre]
  | cons c cs ih =>
    cases s with
    | nil => simp [pre]
    | cons b bs =>
      simp only [pre, Bool.and_eq_true, beq_iff_eq, ih, List.cons_append,
        List.cons.injEq]
      constructor
      · rintro ⟨rfl, t, rfl⟩; exact ⟨t, rfl, rfl⟩
      · rintro ⟨t, rfl, rfl⟩; exact ⟨rfl, t, rfl⟩

lemma splitFirst_eq {sep s a b : Str} (h : splitFirst sep s = some (a, b)) :
    s = a ++ sep ++ b := by
  induction s generalizing a with
  | nil =>
    by_cases he : sep.isEmpty <;> simp [splitFirst, he] at h
    obtain ⟨rfl, rfl⟩ := h
    simp [List.isEmpty_iff.mp he]
  | cons c rest ih =>
    rw [splitFirst] at h
    by_cases hp : pre sep (c :: rest) = true
    · rw [if_pos hp] at h
      obtain ⟨t, ht⟩ := pre_iff.mp hp
      obtain ⟨rfl, rfl⟩ := Prod.mk.injEq .. ▸ Option.some.inj h
      rw [ht, List.drop_left]
      simp only [List.nil_append]
    · rw [if_neg hp] at h
      cases hr : splitFirst sep rest with
      | none => rw [hr] at h; exact absurd h (by simp)
      | some pq =>
        obtain ⟨p, q⟩ := pq
        rw [hr] at h
        obtain ⟨rfl, rfl⟩ := Prod.mk.injEq .. ▸ Option.some.inj h
        simpa using ih hr

lemma splitFirst_self_append {sep : Str} (t : Str) (h : sep ≠ []) :
    splitFirst sep (sep ++ t) = some ([], t) := by
  cases sep with
  | nil => exact absurd rfl h
  | cons c cs =>
    rw [List.cons_append, splitFirst, if_pos (by simpa using pre_append (c :: cs) t)]
    simp [List.drop_left]

lemma splitFirst_isSome_append {sep : Str} (a b : Str) (h : sep ≠ []) :
    (splitFirst sep (a ++ sep ++ b)).isSome = true := by
  induction a with
  | nil => simp [splitFirst_self_append b h]
  | cons c a ih =>
    rw [List.cons_append, List.cons_append, splitFirst]
    by_cases hp : pre sep (c :: (a ++ sep ++ b)) = true
    · rw [if_pos hp]; rfl
    · rw [if_neg hp]
      rw [List.append_assoc] at ih ⊢
      cases hr : splitFirst sep (a ++ (sep ++ b)) with
      | none => rw [hr] at ih; exact absurd ih (by simp)
      | some pq => cases pq; rfl

lemma sub_of_append {sep : Str} (a b : Str) (h : sep ≠ []) :
    sub sep (a ++ sep ++ b) = true :=
  splitFirst_isSome_append a b h

lemma splitFirst_none {pat s : Str} (h : sub pat s = false) :
    splitFirst pat s = none := by
  unfold sub at h
  cases hs : splitFirst pat s with
  | none => rfl
  | some p => rw [hs] at h; simp at h

lemma pyReplaceMax_no_occ {old s : Str} (new : Str) (h : splitFirst old s = none) :
    ∀ n, pyReplaceMax old new n s = s := by
  intro n
  cases n with
  | zero => rfl
  | succ m => rw [pyReplaceMax, h]

lemma pyReplaceMax_strip {old t : Str} (ho : old ≠ []) (h : sub old t = false) :
    ∀ n, pyReplaceMax old [] (n + 1) (old ++ t) = t := by
  intro n
  rw [pyReplaceMax, splitFirst_self_append t ho]
  simpa using pyReplaceMax_no_occ [] (splitFirst_none h) n

lemma pyReplace_strip {old t : Str} (ho : old ≠ []) (h : sub old t = false) :
    pyReplace old [] (old ++ t) = t := by
  unfold pyReplace
  have hk : (old ++ t).length = ((old ++ t).length - 1) + 1 := by
    cases old with
    | nil => exact absurd rfl ho
    | cons c cs => simp
  rw [hk]
  exact pyReplaceMax_strip ho h _

lemma beforeFirst_prefix (sep s : Str) : ∃ u, s = beforeFirst sep s ++ u := by
  unfold beforeFirst
  cases hs : splitFirst sep s with
  | none => exact ⟨[], by simp⟩
  | some pq =>
    obtain ⟨p, q⟩ := pq
    exact ⟨sep ++ q, by simpa [List.append_assoc] using splitFirst_eq hs⟩

lemma portToken_sub {uri : Str} (h : sub (s2l "port=") uri = true) :
    sub (s2l "port=" ++ portToken uri) uri = true := by
  unfold sub at h
  cases hs : splitFirst (s2l "port=") uri with
  | none => rw [hs] at h; simp at h
  | some pq =>
    obtain ⟨p, rest⟩ := pq
    have huri : uri = p ++ s2l "port=" ++ rest := splitFirst_eq hs
    have hport : portToken uri =
        beforeFirst (s2l "&") (beforeFirst (s2l "port=") rest) := by
      unfold portToken; rw [hs]
    obtain ⟨u1, hu1⟩ := beforeFirst_prefix (s2l "port=") rest
    obtain ⟨u2, hu2⟩ := beforeFirst_prefix (s2l "&") (beforeFirst (s2l "port=") rest)
    have key : uri = p ++ (s2l "port=" ++ portToken uri) ++ (u2 ++ u1) := by
      rw [hport]
      calc uri = p ++ s2l "port=" ++ rest := huri
        _ = p ++ s2l "port=" ++ (beforeFirst (s2l "port=") rest ++ u1) := by
              rw [← hu1]
        _ = p ++ s2l "port=" ++
              ((beforeFirst (s2l "&") (beforeFirst (s2l "port=") rest) ++ u2) ++ u1) := by
              rw [← hu2]
        _ = p ++ (s2l "port=" ++ beforeFirst (s2l "&") (beforeFirst (s2l "port=") rest))
              ++ (u2 ++ u1) := by simp [List.append_assoc]
    nth_rewrite 2 [key]
    refine sub_of_append p (u2 ++ u1) ?_
    show ('p' :: (s2l "ort=" ++ portToken uri)) ≠ []
    exact List.cons_ne_nil _ _

/-! ## Shared concrete fixtures -/

/-- A device oracle on which every call succeeds. -/
def devAllOk : DeviceR where
  systemInformationR := .ok []
  interfaceInformationR := .ok []
  powerStatusR := .ok (s2l "active")
  setPowerStatusR := fun _ => .ok ()
  versionsR := fun _ => .ok []
  volumeInformationR := fun _ => .ok [⟨some (s2l "off")⟩]
  setAudioVolumeR := fun _ _ => .ok ()
  setAudioMuteR := fun _ _ => .ok ()
  soundSettingsR := fun _ => .ok []
  setSoundSettingsR := fun _ _ => .ok ()
  speakerSettingsR := fun _ => .ok []
  setSpeakerSettingsR := fun _ _ => .ok ()
  equalizerSettingsR := fun _ => .ok []
  schemeListR := .ok []
  sourceListR := fun _ => .ok []
  playingContentInfoR := fun _ => .ok []
  setPlayContentR := fun _ _ => .ok ()
  externalTerminalsStatusR := fun _ => .ok []
  setActiveTerminalR := fun _ _ => .ok ()
  refreshR := .ok ()

/-! ## C2 — refresh atomicity -/

/-- The sound-settings list cached before the failing refresh. -/
def oldSound : Setting := ⟨some (s2l "soundField"), none, none, none, none, none⟩

/-- The sound-settings list the device returns during the failing
refresh (different from the cached one). -/
def newSound : Setting := ⟨some (s2l "pureDirect"), none, none, none, none, none⟩

/-- A populated cache snapshot taken before the failing refresh. -/
def cacheBefore : CacheState := ⟨[oldSound], [], [1], some 5⟩

/-- A device whose sound-settings call succeeds with fresh data but
whose speaker-settings call raises. -/
def devSpeakerFail : DeviceR :=
  { devAllOk with
    soundSettingsR := fun _ => .ok [newSound],
    speakerSettingsR := fun _ => .error .transportError }

/-- C2: the claim fails on the code.  When the speaker-settings call of
`refresh()` raises, the error does propagate and `speaker_settings`,
`zones` and `last_refresh` keep their old values, but `sound_settings`
has already been overwritten with the freshly fetched list, so the cache
after the failed call differs from the cache before it: refresh is not
atomic.  (The code's own comment says the existing cache is kept on
failure, and the specification calls refresh fully transactional, so the
sequential field assignment is the slip.) -/
theorem C2_refresh_not_atomic :
    (DeviceSettingsCache.refresh cacheBefore devSpeakerFail 9).2.2 =
        some ApiErr.transportError
    ∧ (DeviceSettingsCache.refresh cacheBefore devSpeakerFail 9).1.sound_settings =
        [newSound]
    ∧ [newSound] ≠ [oldSound]
    ∧ (DeviceSettingsCache.refresh cacheBefore devSpeakerFail 9).1 ≠ cacheBefore
    ∧ (DeviceSettingsCache.refresh cacheBefore devSpeakerFail 9).1.speaker_settings =
        cacheBefore.speaker_settings
    ∧ (DeviceSettingsCache.refresh cacheBefore devSpeakerFail 9).1.zones =
        cacheBefore.zones
    ∧ (DeviceSettingsCache.refresh cacheBefore devSpeakerFail 9).1.last_refresh =
        cacheBefore.last_refresh := by
  refine ⟨rfl, rfl, by decide, by decide, rfl, rfl, rfl⟩

/-! ## C6 — zone probing -/

lemma probeZone_iff (dev : DeviceR) (n : Nat) :
    DeviceSettingsCache.probeZone dev n = true ↔
      ∃ l, dev.volumeInformationR (zoneUri n) = .ok l ∧ l ≠ [] := by
  unfold DeviceSettingsCache.probeZone
  cases h : (get_volume_info dev (zoneUri n)).1 with
  | ok l =>
    have : dev.volumeInformationR (zoneUri n) = .ok l := h
    simp [this, List.isEmpty_iff]
  | error e =>
    have : dev.volumeInformationR (zoneUri n) = .error e := h
    simp [this]

/-- C6: `_discover_zones` issues exactly the two volume-info probes for
`extOutput:zone?zone=2` and `extOutput:zone?zone=3`; zone 1 is always
reported; a probed zone `n ∈ {2, 3}` is included exactly when its query
succeeds with a non-empty result (any raised error counts as absent). -/
theorem C6_zone_probing (dev : DeviceR) :
    (DeviceSettingsCache.discover_zones dev).2 =
      [Call.getVolumeInformation (s2l "extOutput:zone?zone=2"),
       Call.getVolumeInformation (s2l "extOutput:zone?zone=3")]
    ∧ (∀ n : Nat, DeviceSettingsCache.probeZone dev n = true ↔
        ∃ l, dev.volumeInformationR (zoneUri n) = .ok l ∧ l ≠ [])
    ∧ (∀ n : Nat, n ∈ (DeviceSettingsCache.discover_zones dev).1 ↔
        (n = 1 ∨ (n = 2 ∧ DeviceSettingsCache.probeZone dev 2 = true)
          ∨ (n = 3 ∧ DeviceSettingsCache.probeZone dev 3 = true))) := by
  refine ⟨rfl, probeZone_iff dev, fun n => ?_⟩
  show n ∈ ([1] ++ (if DeviceSettingsCache.probeZone dev 2 then [2] else [])
      ++ (if DeviceSettingsCache.probeZone dev 3 then [3] else []) : List Nat) ↔ _
  cases DeviceSettingsCache.probeZone dev 2 <;>
    cases DeviceSettingsCache.probeZone dev 3 <;> simp

/-! ## C9 — zone list invariant -/

lemma zoneListShape (b2 b3 : Bool) :
    List.Sorted (· < ·)
        ([1] ++ (if b2 then [2] else []) ++ (if b3 then [3] else []) : List Nat)
    ∧ ([1] ++ (if b2 then [2] else []) ++ (if b3 then [3] else []) : List Nat).head?
        = some 1
    ∧ ∀ n ∈ ([1] ++ (if b2 then [2] else []) ++ (if b3 then [3] else []) : List Nat),
        n = 1 ∨ n = 2 ∨ n = 3 := by
  cases b2 <;> cases b3 <;> exact ⟨by decide, by decide, by decide⟩

lemma discover_zones_invariant (dev : DeviceR) :
    List.Sorted (· < ·) (DeviceSettingsCache.discover_zones dev).1
    ∧ (DeviceSettingsCache.discover_zones dev).1.head? = some 1
    ∧ ∀ n ∈ (DeviceSettingsCache.discover_zones dev).1, n = 1 ∨ n = 2 ∨ n = 3 :=
  zoneListShape (DeviceSettingsCache.probeZone dev 2)
    (DeviceSettingsCache.probeZone dev 3)

/-- C9: every zone list `_discover_zones` can return is strictly
ascending, starts with 1 and is contained in `{1, 2, 3}`, whichever
probes succeed; and a successful `refresh()` installs exactly such a
list as the cache's `zones` field. -/
theorem C9_zone_list_invariant :
    (∀ dev : DeviceR,
      List.Sorted (· < ·) (DeviceSettingsCache.discover_zones dev).1
      ∧ (DeviceSettingsCache.discover_zones dev).1.head? = some 1
      ∧ ∀ n ∈ (DeviceSettingsCache.discover_zones dev).1, n = 1 ∨ n = 2 ∨ n = 3)
    ∧ ∀ (st : CacheState) (dev : DeviceR) (now : Nat),
        (DeviceSettingsCache.refresh st dev now).2.2 = none →
        List.Sorted (· < ·) (DeviceSettingsCache.refresh st dev now).1.zones
        ∧ (DeviceSettingsCache.refresh st dev now).1.zones.head? = some 1
        ∧ ∀ n ∈ (DeviceSettingsCache.refresh st dev now).1.zones,
            n = 1 ∨ n = 2 ∨ n = 3 := by
  refine ⟨discover_zones_invariant, ?_⟩
  intro st dev now herr
  have hz : (DeviceSettingsCache.refresh st dev now).1.zones =
      (DeviceSettingsCache.discover_zones dev).1 := by
    unfold DeviceSettingsCache.refresh at herr ⊢
    revert herr
    cases get_sound_settings dev (s2l "") with
    | mk r cs =>
      cases r with
      | error e => intro herr; exact absurd herr (by simp)
      | ok ss =>
        cases get_speaker_settings dev (s2l "") with
        | mk r2 cs2 =>
          cases r2 with
          | error e => intro herr; exact absurd herr (by simp)
          | ok sp => intro _; rfl
  rw [hz]
  exact discover_zones_invariant dev

/-- C9 witness: a fully successful refresh from the empty cache, whose
resulting zone list `[1, 2, 3]` satisfies the invariant. -/
theorem C9_zone_list_invariant_witness :
    (DeviceSettingsCache.refresh initCache devAllOk 0).2.2 = none
    ∧ List.Sorted (· < ·) (DeviceSettingsCache.refresh initCache devAllOk 0).1.zones
    ∧ (DeviceSettingsCache.refresh initCache devAllOk 0).1.zones.head? = some 1
    ∧ ∀ n ∈ (DeviceSettingsCache.refresh initCache devAllOk 0).1.zones,
        n = 1 ∨ n = 2 ∨ n = 3 :=
  ⟨rfl, C9_zone_list_invariant.2 initCache devAllOk 0 rfl⟩

/-! ## C7 — HDMI output value mapping -/

/-- C7: `SYSTEM_HDMI_OUTPUT_<V>` resolves through exactly the fixed
table `A→hdmi_A`, `B→hdim_B` (the literal source string, `hdim` not
`hdmi`), `AB→hdmi_AB`, `OFF→off`, with target `hdmiOutput`, and the
dispatcher feeds exactly that pair to the validate-then-set gate. -/
theorem C7_hdmi_output_mapping (st : CacheState) (dev : DeviceR) (rpt : Nat)
    (off : Bool) (sources : List Source) :
    resolvePair (s2l "SYSTEM_HDMI_OUTPUT_A") = some (s2l "hdmiOutput", s2l "hdmi_A")
    ∧ resolvePair (s2l "SYSTEM_HDMI_OUTPUT_B") = some (s2l "hdmiOutput", s2l "hdim_B")
    ∧ resolvePair (s2l "SYSTEM_HDMI_OUTPUT_AB") = some (s2l "hdmiOutput", s2l "hdmi_AB")
    ∧ resolvePair (s2l "SYSTEM_HDMI_OUTPUT_OFF") = some (s2l "hdmiOutput", s2l "off")
    ∧ sendCmd (s2l "SYSTEM_HDMI_OUTPUT_A") rpt off (some st) sources dev =
        validateAndSet st dev (s2l "hdmiOutput") (s2l "hdmi_A")
    ∧ sendCmd (s2l "SYSTEM_HDMI_OUTPUT_B") rpt off (some st) sources dev =
        validateAndSet st dev (s2l "hdmiOutput") (s2l "hdim_B")
    ∧ sendCmd (s2l "SYSTEM_HDMI_OUTPUT_AB") rpt off (some st) sources dev =
        validateAndSet st dev (s2l "hdmiOutput") (s2l "hdmi_AB")
    ∧ sendCmd (s2l "SYSTEM_HDMI_OUTPUT_OFF") rpt off (some st) sources dev =
        validateAndSet st dev (s2l "hdmiOutput") (s2l "off") :=
  ⟨rfl, rfl, rfl, rfl, rfl, rfl, rfl, rfl⟩

/-! ## C8 — device-info caching in the RPC client -/

/-- C8: once `get_device_info` has fetched successfully, every later
call returns the same value from the instance cache without issuing any
RPC (whatever the device would now answer); `connect` merely delegates
to `get_device_info`; and every other client method issues exactly its
one RPC on every invocation, with a result depending only on the
device's response — nothing else is cached. -/
theorem C8_device_info_cached :
    (∀ (st st2 : ClientState) (dev dev2 : DeviceR) (r : Except ApiErr Obj)
        (cs : List Call) (i : Obj),
        get_device_info st dev = (st2, r, cs) → r = .ok i →
        get_device_info st2 dev2 = (st2, .ok i, []))
    ∧ (∀ st dev, (connect st dev).1 = (get_device_info st dev).1
        ∧ (connect st dev).2.2 = (get_device_info st dev).2.2)
    ∧ (∀ dev, get_interface_info dev =
        (dev.interfaceInformationR, [Call.getInterfaceInformation]))
    ∧ (∀ dev, get_power_status dev = (dev.powerStatusR, [Call.getPowerStatus]))
    ∧ (∀ dev s, set_power_status dev s =
        (dev.setPowerStatusR s, [Call.setPowerStatus s]))
    ∧ (∀ dev s, get_versions dev s = (dev.versionsR s, [Call.getVersions s]))
    ∧ (∀ dev z, get_volume_info dev z =
        (dev.volumeInformationR z, [Call.getVolumeInformation z]))
    ∧ (∀ dev v z, set_volume dev v z =
        (dev.setAudioVolumeR z v, [Call.setAudioVolume z v]))
    ∧ (∀ dev m z, (set_mute dev m z).2 =
        [Call.setAudioMute z (if m then s2l "on" else s2l "off")])
    ∧ (∀ dev t, get_sound_settings dev t =
        (dev.soundSettingsR t, [Call.getSoundSettings t]))
    ∧ (∀ dev t v, set_sound_setting dev t v =
        (dev.setSoundSettingsR t v, [Call.setSoundSettings t v]))
    ∧ (∀ dev t, get_speaker_settings dev t =
        (dev.speakerSettingsR t, [Call.getSpeakerSettings t]))
    ∧ (∀ dev t v, set_speaker_level dev t v =
        (dev.setSpeakerSettingsR t v, [Call.setSpeakerSettings t v]))
    ∧ (∀ dev t, get_equalizer_settings dev t =
        (dev.equalizerSettingsR t, [Call.getCustomEqualizerSettings t]))
    ∧ (∀ dev, get_scheme_list dev = (dev.schemeListR, [Call.getSchemeList]))
    ∧ (∀ dev sch, get_source_list dev sch =
        (dev.sourceListR sch, [Call.getSourceList sch]))
    ∧ (∀ dev z, get_playing_content_info dev z =
        (dev.playingContentInfoR z, [Call.getPlayingContentInfo z]))
    ∧ (∀ dev u z, switch_input dev u z =
        (dev.setPlayContentR z u, [Call.setPlayContent z u]))
    ∧ (∀ dev o, get_external_terminals_status dev o =
        (dev.externalTerminalsStatusR o, [Call.getCurrentExternalTerminalsStatus o]))
    ∧ (∀ dev u a, (set_active_terminal dev u a).2 =
        [Call.setActiveTerminal (if a then s2l "active" else s2l "inactive") u])
    ∧ (∀ dev z v, (set_zone_volume dev z v).2 =
        [Call.setAudioVolume (zoneUri z) v])
    ∧ (∀ dev z m, (set_zone_mute dev z m).2 =
        [Call.setAudioMute (zoneUri z) (if m then s2l "on" else s2l "off")])
    ∧ (∀ dev z, (get_zone_volume dev z).2 =
        [Call.getVolumeInformation (zoneUri z)]) := by
  refine ⟨?_, ?_, fun _ => rfl, fun _ => rfl, fun _ _ => rfl, fun _ _ => rfl,
    fun _ _ => rfl, fun _ _ _ => rfl, fun _ _ _ => rfl, fun _ _ => rfl,
    fun _ _ _ => rfl, fun _ _ => rfl, fun _ _ _ => rfl, fun _ _ => rfl,
    fun _ => rfl, fun _ _ => rfl, fun _ _ => rfl, fun _ _ _ => rfl,
    fun _ _ => rfl, fun _ _ _ => rfl, fun _ _ _ => rfl, fun _ _ _ => rfl, ?_⟩
  · intro st st2 dev dev2 r cs i h hr
    subst hr
    cases hst : st.device_info with
    | some j =>
      simp only [get_device_info, hst, Prod.mk.injEq, Except.ok.injEq] at h
      obtain ⟨rfl, rfl, rfl⟩ := h
      simp [get_device_info, hst]
    | none =>
      cases hd : dev.systemInformationR with
      | ok j =>
        simp only [get_device_info, hst, hd, Prod.mk.injEq, Except.ok.injEq] at h
        obtain ⟨rfl, rfl, rfl⟩ := h
        simp [get_device_info]
      | error e =>
        simp only [get_device_info, hst, hd, Prod.mk.injEq] at h
        exact absurd h.2.1 (by simp)
  · intro st dev
    unfold connect
    cases h : get_device_info st dev with
    | mk a bc =>
      obtain ⟨b, c⟩ := bc
      cases b <;> simp
  · intro dev z
    unfold get_zone_volume
    cases h : dev.volumeInformationR (zoneUri z) with
    | ok l => simp [get_volume_info, h]
    | error e => simp [get_volume_info, h]

/-- C8 witness: a first successful fetch populates the cache and the
second call is served from it with no RPC issued. -/
theorem C8_device_info_cached_witness :
    get_device_info ⟨some []⟩ devAllOk = (⟨some []⟩, .ok [], []) :=
  C8_device_info_cached.1 ⟨none⟩ ⟨some []⟩ devAllOk devAllOk (.ok [])
    [Call.getSystemInformation] [] rfl rfl

/-! ## Dispatcher routing lemmas

Commands with the `SOUND_`, `SPEAKER_`, `ZONE` and `SYSTEM_` prefixes
fail every earlier guard of the `SEND_CMD` chain, so `sendCmd` reduces
to the corresponding branch; these reductions are definitional. -/

lemma sendCmd_sound_route (rest : Str) (rpt : Nat) (off : Bool) (st : CacheState)
    (sources : List Source) (dev : DeviceR) :
    sendCmd (s2l "SOUND_" ++ rest) rpt off (some st) sources dev =
      soundCmd (s2l "SOUND_" ++ rest) st dev := rfl

lemma sendCmd_speaker_route (rest : Str) (rpt : Nat) (off : Bool) (st : CacheState)
    (sources : List Source) (dev : DeviceR) :
    sendCmd (s2l "SPEAKER_" ++ rest) rpt off (some st) sources dev =
      speakerCmd (s2l "SPEAKER_" ++ rest) st dev := rfl

lemma sendCmd_zone_route (rest : Str) (rpt : Nat) (off : Bool) (st : CacheState)
    (sources : List Source) (dev : DeviceR) :
    sendCmd (s2l "ZONE" ++ rest) rpt off (some st) sources dev =
      zoneCmd (s2l "ZONE" ++ rest) st dev := rfl

lemma sendCmd_system_route (rest : Str) (rpt : Nat) (off : Bool) (st : CacheState)
    (sources : List Source) (dev : DeviceR) :
    sendCmd (s2l "SYSTEM_" ++ rest) rpt off (some st) sources dev =
      systemCmd (s2l "SYSTEM_" ++ rest) st dev := rfl

/-- The calls of a `run1` step whose continuation issues none are the
calls of the step itself, whether or not the step fails. -/
lemma run1_calls {α : Type} (rc : Except ApiErr α × List Call)
    (k : α → Status × List Call) (hk : ∀ a, (k a).2 = []) :
    (run1 rc k).2 = rc.2 := by
  rcases rc with ⟨r, cs⟩
  cases r <;> simp [run1, hk]

/-- Membership in the calls of a `run1` step whose continuation issues
none reduces to membership in the step's own calls. -/
lemma run1_mem {α : Type} (rc : Except ApiErr α × List Call)
    (k : α → Status × List Call) (c : Call) (hk : ∀ a, (k a).2 = [])
    (h : c ∈ (run1 rc k).2) : c ∈ rc.2 := by
  rcases rc with ⟨r, cs⟩
  cases r <;> simp_all [run1, hk]

/-! ## C3 — zone command rejection -/

/-- A cache whose zone set is just the main zone. -/
def cacheMainZone : CacheState := ⟨[], [], [1], none⟩

/-- A cache whose zone set is `{1, 2}`. -/
def cacheZones12 : CacheState := ⟨[], [], [1, 2], some 0⟩

/-- C3 counterexample: `ZONE1_ACTIVATE` with zone 1 in the cache's zone
set is not rejected — the dispatcher issues the set-active-terminal RPC
for the main zone and returns OK, contradicting the claimed bad-request
outcome with zero calls. -/
theorem C3_zone1_activate_counterexample :
    sendCmd (s2l "ZONE1_ACTIVATE") 1 false (some cacheMainZone) [] devAllOk =
      (Status.ok, [Call.setActiveTerminal (s2l "active") (s2l "extOutput:zone?zone=1")])
    ∧ Status.ok ≠ Status.badRequest
    ∧ ([Call.setActiveTerminal (s2l "active") (s2l "extOutput:zone?zone=1")] :
        List Call) ≠ [] := by
  refine ⟨rfl, by decide, by decide⟩

/-- C3 (amended): a `ZONE`-prefixed command whose fifth character is
missing or not a digit, or whose zone number is not in the cache's zone
set, yields `BAD_REQUEST` with no RPC issued; but `ZONE1_ACTIVATE` and
`ZONE1_DEACTIVATE` are not special-cased — when zone 1 is in the zone
set they issue the set-active-terminal RPC on the main-zone URI. -/
theorem C3_zone_dispatch_amended (st : CacheState) (rpt : Nat) (off : Bool)
    (sources : List Source) (dev : DeviceR) :
    (∀ rest : Str,
      (match pyAt (s2l "ZONE" ++ rest) 4 with
       | none => True
       | some ch =>
         match charDigit ch with
         | none => True
         | some d => st.zones.contains d = false) →
      sendCmd (s2l "ZONE" ++ rest) rpt off (some st) sources dev = (.badRequest, []))
    ∧ (st.zones.contains 1 = true →
        (sendCmd (s2l "ZONE1_ACTIVATE") rpt off (some st) sources dev).2 =
          [Call.setActiveTerminal (s2l "active") (s2l "extOutput:zone?zone=1")]
        ∧ (sendCmd (s2l "ZONE1_DEACTIVATE") rpt off (some st) sources dev).2 =
          [Call.setActiveTerminal (s2l "inactive") (s2l "extOutput:zone?zone=1")]) := by
  constructor
  · intro rest h
    rw [sendCmd_zone_route]
    cases rest with
    | nil => rfl
    | cons ch r =>
      have h2 : (match charDigit ch with
          | none => True
          | some d => st.zones.contains d = false) := h
      cases hd : charDigit ch with
      | none =>
        show zoneCmd (s2l "ZONE" ++ ch :: r) st dev = (.badRequest, [])
        unfold zoneCmd
        have hp : zoneParse (s2l "ZONE" ++ ch :: r) =
            (charDigit ch).map (fun d => (d, r.drop 1)) := rfl
        rw [hp, hd]
        rfl
      | some d =>
        rw [hd] at h2
        have h3 : st.zones.contains d = false := h2
        show zoneCmd (s2l "ZONE" ++ ch :: r) st dev = (.badRequest, [])
        unfold zoneCmd
        have hp : zoneParse (s2l "ZONE" ++ ch :: r) =
            (charDigit ch).map (fun d => (d, r.drop 1)) := rfl
        rw [hp, hd]
        show zoneExec d (r.drop 1) st dev = (.badRequest, [])
        unfold zoneExec
        rw [h3]
        rfl
  · intro h1
    constructor
    · rw [show sendCmd (s2l "ZONE1_ACTIVATE") rpt off (some st) sources dev =
          zoneExec 1 (s2l "ACTIVATE") st dev from rfl]
      unfold zoneExec
      rw [h1]
      show (run1 (set_active_terminal dev (zoneUri 1) true)
        (fun _ => (Status.ok, []))).2 = _
      rw [run1_calls _ _ (fun _ => rfl)]
      rfl
    · rw [show sendCmd (s2l "ZONE1_DEACTIVATE") rpt off (some st) sources dev =
          zoneExec 1 (s2l "DEACTIVATE") st dev from rfl]
      unfold zoneExec
      rw [h1]
      show (run1 (set_active_terminal dev (zoneUri 1) false)
        (fun _ => (Status.ok, []))).2 = _
      rw [run1_calls _ _ (fun _ => rfl)]
      rfl

/-- C3 witness: `ZONE4_VOLUME_UP` with zone set `{1, 2}` and `ZONEX_...`
(no digit) are rejected with no call; `ZONE1_ACTIVATE` with zone 1 known
issues its RPC. -/
theorem C3_zone_dispatch_amended_witness :
    sendCmd (s2l "ZONE4_VOLUME_UP") 1 false (some cacheZones12) [] devAllOk =
      (.badRequest, [])
    ∧ sendCmd (s2l "ZONEX_VOLUME_UP") 1 false (some cacheZones12) [] devAllOk =
      (.badRequest, [])
    ∧ (sendCmd (s2l "ZONE1_ACTIVATE") 1 false (some cacheZones12) [] devAllOk).2 =
      [Call.setActiveTerminal (s2l "active") (s2l "extOutput:zone?zone=1")] :=
  ⟨(C3_zone_dispatch_amended cacheZones12 1 false [] devAllOk).1
      (s2l "4_VOLUME_UP") (by rfl),
   (C3_zone_dispatch_amended cacheZones12 1 false [] devAllOk).1
      (s2l "X_VOLUME_UP") trivial,
   ((C3_zone_dispatch_amended cacheZones12 1 false [] devAllOk).2 rfl).1⟩

/-! ## C4 — SOUND_* / SYSTEM_* validation gate -/

lemma validateAndSet_spec (st : CacheState) (dev : DeviceR) (t v : Str) :
    (∀ t2 v2, Call.setSoundSettings t2 v2 ∈ (validateAndSet st dev t v).2 →
        t2 = t ∧ v2 = v
        ∧ DeviceSettingsCache.validate_setting_value st t v = true)
    ∧ (DeviceSettingsCache.validate_setting_value st t v = false →
        validateAndSet st dev t v = (.badRequest, [])) := by
  constructor
  · intro t2 v2 hm
    cases hv : DeviceSettingsCache.validate_setting_value st t v with
    | true =>
      unfold validateAndSet at hm
      rw [hv] at hm
      simp only [if_pos rfl] at hm
      have hmem := run1_mem _ _ _ (fun _ => rfl) hm
      have : Call.setSoundSettings t2 v2 = Call.setSoundSettings t v := by
        simpa [set_sound_setting] using hmem
      obtain ⟨rfl, rfl⟩ : t2 = t ∧ v2 = v := by simpa using this
      exact ⟨rfl, rfl, rfl⟩
    | false =>
      unfold validateAndSet at hm
      rw [hv] at hm
      simp at hm
  · intro hv
    unfold validateAndSet
    rw [hv]
    rfl

lemma C4_aux (st : CacheState) (dev : DeviceR) (command t0 v0 : Str)
    (hres : resolvePair command = some (t0, v0)) :
    (∀ t v, Call.setSoundSettings t v ∈ (validateAndSet st dev t0 v0).2 →
        resolvePair command = some (t, v)
        ∧ DeviceSettingsCache.validate_setting_value st t v = true)
    ∧ ∀ t v, resolvePair command = some (t, v) →
        DeviceSettingsCache.validate_setting_value st t v = false →
        validateAndSet st dev t0 v0 = (.badRequest, []) := by
  constructor
  · intro t v hm
    obtain ⟨rfl, rfl, hv⟩ := (validateAndSet_spec st dev t0 v0).1 t v hm
    exact ⟨hres, hv⟩
  · intro t v hrv hv
    rw [hres] at hrv
    obtain ⟨rfl, rfl⟩ : t0 = t ∧ v0 = v := by simpa using hrv
    exact (validateAndSet_spec st dev t0 v0).2 hv

/-- C4: every `SOUND_*` / `SYSTEM_*` dispatch issues the
set-sound-setting RPC only for its resolved `(target, value)` pair and
only when `validate_setting_value` accepts it; whenever the resolved
pair fails validation the dispatch is `BAD_REQUEST` with zero RPCs
issued. -/
theorem C4_validation_gate (command : Str) (st : CacheState) (rpt : Nat) (off : Bool)
    (sources : List Source) (dev : DeviceR)
    (hpre : pre (s2l "SOUND_") command = true ∨ pre (s2l "SYSTEM_") command = true) :
    (∀ t v, Call.setSoundSettings t v ∈
        (sendCmd command rpt off (some st) sources dev).2 →
        resolvePair command = some (t, v)
        ∧ DeviceSettingsCache.validate_setting_value st t v = true)
    ∧ ∀ t v, resolvePair command = some (t, v) →
        DeviceSettingsCache.validate_setting_value st t v = false →
        sendCmd command rpt off (some st) sources dev = (.badRequest, []) := by
  rcases hpre with h | h
  · obtain ⟨rest, rfl⟩ := pre_iff.mp h
    rw [sendCmd_sound_route]
    have hgF : pre (s2l "SOUND_FIELD_") (s2l "SOUND_" ++ rest) =
        pre (s2l "FIELD_") rest := rfl
    cases hF : pre (s2l "FIELD_") rest with
    | true =>
      have hsc : soundCmd (s2l "SOUND_" ++ rest) st dev =
          validateAndSet st dev (s2l "soundField")
            (lower (pyReplace (s2l "SOUND_FIELD_") [] (s2l "SOUND_" ++ rest))) := by
        unfold soundCmd
        rw [hgF, hF]
        rfl
      have hres : resolvePair (s2l "SOUND_" ++ rest) =
          some (s2l "soundField",
            lower (pyReplace (s2l "SOUND_FIELD_") [] (s2l "SOUND_" ++ rest))) := by
        unfold resolvePair
        rw [hgF, hF]
        rfl
      rw [hsc]
      exact C4_aux st dev _ _ _ hres
    | false =>
      have hs1 : splitFirst (s2l "_") (s2l "SOUND_" ++ rest) =
          some (s2l "SOUND", rest) := rfl
      have hsc : soundCmd (s2l "SOUND_" ++ rest) st dev =
          (match splitFirst (s2l "_") rest with
           | none => (Status.ok, [])
           | some (p1, p2) => validateAndSet st dev (lower p1) (lower p2)) := by
        unfold soundCmd
        rw [hgF, hF]
        rfl
      have hrp : resolvePair (s2l "SOUND_" ++ rest) =
          (match splitFirst (s2l "_") rest with
           | none => none
           | some (p1, p2) => some (lower p1, lower p2)) := by
        unfold resolvePair
        rw [hgF, hF]
        have hg2 : pre (s2l "SOUND_") (s2l "SOUND_" ++ rest) = true :=
          pre_append _ _
        rw [hg2]
        rfl
      cases hs2 : splitFirst (s2l "_") rest with
      | none =>
        have hsc2 : soundCmd (s2l "SOUND_" ++ rest) st dev = (Status.ok, []) := by
          rw [hsc, hs2]
        have hres2 : resolvePair (s2l "SOUND_" ++ rest) = none := by
          rw [hrp, hs2]
        rw [hsc2, hres2]
        exact ⟨fun t v hm => absurd hm (by simp), fun t v hrv => absurd hrv (by simp)⟩
      | some pq =>
        obtain ⟨p1, p2⟩ := pq
        have hsc2 : soundCmd (s2l "SOUND_" ++ rest) st dev =
            validateAndSet st dev (lower p1) (lower p2) := by
          rw [hsc, hs2]
        have hres2 : resolvePair (s2l "SOUND_" ++ rest) =
            some (lower p1, lower p2) := by
          rw [hrp, hs2]
        rw [hsc2]
        exact C4_aux st dev _ _ _ hres2
  · obtain ⟨rest, rfl⟩ := pre_iff.mp h
    rw [sendCmd_system_route]
    have hga : pre (s2l "SOUND_FIELD_") (s2l "SYSTEM_" ++ rest) = false := rfl
    have hgb : pre (s2l "SOUND_") (s2l "SYSTEM_" ++ rest) = false := rfl
    have hgd : pre (s2l "SYSTEM_DIMMER_") (s2l "SYSTEM_" ++ rest) =
        pre (s2l "DIMMER_") rest := rfl
    have hgh : pre (s2l "SYSTEM_HDMI_OUTPUT_") (s2l "SYSTEM_" ++ rest) =
        pre (s2l "HDMI_OUTPUT_") rest := rfl
    cases hD : pre (s2l "DIMMER_") rest with
    | true =>
      have hsc : systemCmd (s2l "SYSTEM_" ++ rest) st dev =
          validateAndSet st dev (s2l "dimmer")
            (lower (pyReplace (s2l "SYSTEM_DIMMER_") [] (s2l "SYSTEM_" ++ rest))) := by
        unfold systemCmd
        rw [hgd, hD]
        rfl
      have hres : resolvePair (s2l "SYSTEM_" ++ rest) =
          some (s2l "dimmer",
            lower (pyReplace (s2l "SYSTEM_DIMMER_") [] (s2l "SYSTEM_" ++ rest))) := by
        unfold resolvePair
        rw [hga, hgb, hgd, hD]
        rfl
      rw [hsc]
      exact C4_aux st dev _ _ _ hres
    | false =>
      cases hH : pre (s2l "HDMI_OUTPUT_") rest with
      | true =>
        have hsc : systemCmd (s2l "SYSTEM_" ++ rest) st dev =
            validateAndSet st dev (s2l "hdmiOutput")
              (hdmiValueMap (lower
                (pyReplace (s2l "SYSTEM_HDMI_OUTPUT_") [] (s2l "SYSTEM_" ++ rest)))) := by
          unfold systemCmd
          rw [hgd, hD, hgh, hH]
          rfl
        have hres : resolvePair (s2l "SYSTEM_" ++ rest) =
            some (s2l "hdmiOutput",
              hdmiValueMap (lower
                (pyReplace (s2l "SYSTEM_HDMI_OUTPUT_") [] (s2l "SYSTEM_" ++ rest)))) := by
          unfold resolvePair
          rw [hga, hgb, hgd, hD, hgh, hH]
          rfl
        rw [hsc]
        exact C4_aux st dev _ _ _ hres
      | false =>
        have hsc : systemCmd (s2l "SYSTEM_" ++ rest) st dev = (.badRequest, []) := by
          unfold systemCmd
          rw [hgd, hD, hgh, hH]
          rfl
        have hres : resolvePair (s2l "SYSTEM_" ++ rest) = none := by
          unfold resolvePair
          rw [hga, hgb, hgd, hD, hgh, hH]
          rfl
        rw [hsc, hres]
        exact ⟨fun t v hm => absurd hm (by simp),
          fun t v hrv => absurd hrv (by simp)⟩

/-- A cache holding one `soundField` setting whose only candidate value
is `stereo`. -/
def cacheSoundField : CacheState :=
  ⟨[⟨some (s2l "soundField"), some (s2l "enumTarget"), some (s2l "Sound Field"),
     some true, some (s2l "stereo"),
     some [⟨some (s2l "stereo"), some (s2l "Stereo"), some true, none, none, none⟩]⟩],
   [], [1], some 0⟩

/-- C4 witness: `SOUND_FIELD_BOGUS` resolves to
`(soundField, bogus)`, fails validation against the candidates and is
rejected with zero RPCs. -/
theorem C4_validation_gate_witness :
    sendCmd (s2l "SOUND_FIELD_BOGUS") 1 false (some cacheSoundField) [] devAllOk =
      (.badRequest, []) :=
  (C4_validation_gate (s2l "SOUND_FIELD_BOGUS") cacheSoundField 1 false [] devAllOk
      (Or.inl rfl)).2 (s2l "soundField") (s2l "bogus") rfl rfl

/-! ## C5 — speaker level stepping -/

lemma speakerLoop_skip (name : Str) (st : CacheState) (dev : DeviceR) (up : Bool)
    (c1 rest : List (Str × Str × ℚ × ℚ × ℚ))
    (h : ∀ x ∈ c1, (upper (stripLevel x.1) == name) = false) :
    speakerLoop name st dev up (c1 ++ rest) = speakerLoop name st dev up rest := by
  induction c1 with
  | nil => rfl
  | cons x c1 ih =>
    obtain ⟨xt, xttl, xlo, xhi, xstp⟩ := x
    rw [List.cons_append]
    show (if (upper (stripLevel xt) == name) = true then _ else
        speakerLoop name st dev up (c1 ++ rest)) = _
    rw [h (xt, xttl, xlo, xhi, xstp) (List.mem_cons_self ..)]
    simp only [Bool.false_eq_true, if_false]
    exact ih (fun x hx => h x (List.mem_cons_of_mem _ hx))

/-- The `run1` step on a successful call. -/
lemma run1_ok {α : Type} (a : α) (cs : List Call) (k : α → Status × List Call) :
    run1 (Except.ok a, cs) k = ((k a).1, cs ++ (k a).2) := rfl

/-- The dispatch equality shared by the C5 theorem, its witness and its
counterexample: a name-matched `SPEAKER_*_UP` / `_DOWN` command performs
the one-sided step, the set-level call and the cache refresh. -/
lemma speakerCmd_step (st : CacheState) (dev : DeviceR) (rpt : Nat)
    (off : Bool) (sources : List Source) (body : Str)
    (c1 c2 : List (Str × Str × ℚ × ℚ × ℚ)) (t ttl : Str) (lo hi stp c : ℚ) (cv : Str)
    (hctrls : DeviceSettingsCache.get_available_speaker_controls st.speaker_settings =
        some (c1 ++ (t, ttl, lo, hi, stp) :: c2))
    (hskip : ∀ x ∈ c1, (upper (stripLevel x.1) == beforeLast '_' body) = false)
    (hmatch : (upper (stripLevel t) == beforeLast '_' body) = true)
    (hcv : DeviceSettingsCache.get_current_value st t = some cv)
    (hc : parseDec cv = some c) :
    (suf (s2l "_UP") (s2l "SPEAKER_" ++ body) = true →
      sendCmd (s2l "SPEAKER_" ++ body) rpt off (some st) sources dev =
        run1 (set_speaker_level dev t (min (c + stp) hi))
          (fun _ => run1 (dev.refreshR, [Call.refreshSettings])
            (fun _ => (.ok, []))))
    ∧ (suf (s2l "_UP") (s2l "SPEAKER_" ++ body) = false →
       suf (s2l "_DOWN") (s2l "SPEAKER_" ++ body) = true →
      sendCmd (s2l "SPEAKER_" ++ body) rpt off (some st) sources dev =
        run1 (set_speaker_level dev t (max (c - stp) lo))
          (fun _ => run1 (dev.refreshR, [Call.refreshSettings])
            (fun _ => (.ok, [])))) := by
  have hdrop : (s2l "SPEAKER_" ++ body).drop 8 = body := rfl
  have hloop : ∀ up : Bool,
      speakerLoop (beforeLast '_' body) st dev up
          (c1 ++ (t, ttl, lo, hi, stp) :: c2) =
        run1 (set_speaker_level dev t
            (if up then min (c + stp) hi else max (c - stp) lo))
          (fun _ => run1 (dev.refreshR, [Call.refreshSettings])
            (fun _ => (.ok, []))) := by
    intro up
    rw [speakerLoop_skip _ _ _ _ _ _ hskip]
    show (if (upper (stripLevel t) == beforeLast '_' body) = true then _ else _) = _
    rw [hmatch]
    simp only [if_pos rfl]
    rw [hcv]
    show (match parseDec cv with
      | none => (Status.serverError, [])
      | some c => run1 (set_speaker_level dev t
          (if up then min (c + stp) hi else max (c - stp) lo))
          (fun _ => run1 (dev.refreshR, [Call.refreshSettings])
            (fun _ => (Status.ok, [])))) = _
    rw [hc]
  refine ⟨?_, ?_⟩
  · intro hup
    rw [sendCmd_speaker_route]
    unfold speakerCmd
    rw [hup]
    simp only [Bool.true_or, Bool.not_true, Bool.false_eq_true, if_false]
    rw [hdrop, hctrls]
    exact hloop true
  · intro hup hdown
    rw [sendCmd_speaker_route]
    unfold speakerCmd
    rw [hup, hdown]
    simp only [Bool.false_or, Bool.not_true, Bool.false_eq_true, if_false]
    rw [hdrop, hctrls]
    exact hloop false

/-- C5 (amended): for a `SPEAKER_<NAME>_UP` (resp. `_DOWN`) command
whose name matches an available speaker control `(min, max, step)` with
parseable cached current value `c`, the dispatcher requests
`min(c + step, max)` (resp. `max(c - step, min)`) — a one-sided bound,
not the two-sided clamp; the two agree whenever `min ≤ max` and the stepped
value does not fall below `min` (resp. above `max`) — issues the
set-level call with that value and then refreshes the settings cache. -/
theorem C5_speaker_step_amended (st : CacheState) (dev : DeviceR) (rpt : Nat)
    (off : Bool) (sources : List Source) (body : Str)
    (c1 c2 : List (Str × Str × ℚ × ℚ × ℚ)) (t ttl : Str) (lo hi stp c : ℚ) (cv : Str)
    (hctrls : DeviceSettingsCache.get_available_speaker_controls st.speaker_settings =
        some (c1 ++ (t, ttl, lo, hi, stp) :: c2))
    (hskip : ∀ x ∈ c1, (upper (stripLevel x.1) == beforeLast '_' body) = false)
    (hmatch : (upper (stripLevel t) == beforeLast '_' body) = true)
    (hcv : DeviceSettingsCache.get_current_value st t = some cv)
    (hc : parseDec cv = some c) :
    (suf (s2l "_UP") (s2l "SPEAKER_" ++ body) = true →
      sendCmd (s2l "SPEAKER_" ++ body) rpt off (some st) sources dev =
        run1 (set_speaker_level dev t (min (c + stp) hi))
          (fun _ => run1 (dev.refreshR, [Call.refreshSettings])
            (fun _ => (.ok, []))))
    ∧ (suf (s2l "_UP") (s2l "SPEAKER_" ++ body) = false →
       suf (s2l "_DOWN") (s2l "SPEAKER_" ++ body) = true →
      sendCmd (s2l "SPEAKER_" ++ body) rpt off (some st) sources dev =
        run1 (set_speaker_level dev t (max (c - stp) lo))
          (fun _ => run1 (dev.refreshR, [Call.refreshSettings])
            (fun _ => (.ok, []))))
    ∧ (lo ≤ hi → lo ≤ c + stp → min (c + stp) hi = clampQ (c + stp) lo hi)
    ∧ (lo ≤ hi → c - stp ≤ hi → max (c - stp) lo = clampQ (c - stp) lo hi) := by
  obtain ⟨h1, h2⟩ := speakerCmd_step st dev rpt off sources body c1 c2 t ttl
    lo hi stp c cv hctrls hskip hmatch hcv hc
  refine ⟨h1, h2, ?_, ?_⟩
  · intro ha hb
    rw [clampQ, max_eq_right (le_min hb ha)]
  · intro ha hb
    rw [clampQ, min_eq_left hb, max_comm]

/-- A cache with one available `centerLevel` speaker control of range
`(-10, 10, 0.5)` and cached current value `2`. -/
def cacheSpeaker : CacheState :=
  ⟨[],
   [⟨some (s2l "centerLevel"), some (s2l "doubleNumberTarget"),
     some (s2l "Center Level"), some true, some (s2l "2"),
     some [⟨none, none, none, some (-10), some 10, some (1 / 2)⟩]⟩],
   [1], some 0⟩

/-- Like `cacheSpeaker` but with the cached current value `-20`, below
the control's minimum. -/
def cacheSpeakerLow : CacheState :=
  ⟨[],
   [⟨some (s2l "centerLevel"), some (s2l "doubleNumberTarget"),
     some (s2l "Center Level"), some true, some (s2l "-20"),
     some [⟨none, none, none, some (-10), some 10, some (1 / 2)⟩]⟩],
   [1], some 0⟩

/-- C5 counterexample: from a cached current value of `-20` with range
`(-10, 10, 0.5)`, `SPEAKER_CENTER_UP` requests `-19.5` — the claimed
`clamp(c + step, min, max)` would be `-10` — so the dispatcher's
computation is the one-sided `min(c + step, max)`, not a clamp. -/
theorem C5_clamp_counterexample :
    sendCmd (s2l "SPEAKER_CENTER_UP") 1 false (some cacheSpeakerLow) [] devAllOk =
      (Status.ok,
       [Call.setSpeakerSettings (s2l "centerLevel") (min ((-20 : ℚ) + 1 / 2) 10),
        Call.refreshSettings])
    ∧ min ((-20 : ℚ) + 1 / 2) 10 = -39 / 2
    ∧ clampQ ((-20 : ℚ) + 1 / 2) (-10) 10 = -10
    ∧ ((-39 : ℚ) / 2) ≠ -10 := by
  refine ⟨?_, by norm_num, by norm_num [clampQ], by norm_num⟩
  have h := (speakerCmd_step cacheSpeakerLow devAllOk 1 false [] (s2l "CENTER_UP")
      [] [] (s2l "centerLevel") (s2l "Center Level") (-10) 10 (1 / 2) (-20)
      (s2l "-20") rfl (by simp) rfl rfl rfl).1 rfl
  show sendCmd (s2l "SPEAKER_" ++ s2l "CENTER_UP") 1 false
    (some cacheSpeakerLow) [] devAllOk = _
  rw [h, show set_speaker_level devAllOk (s2l "centerLevel")
        (min ((-20 : ℚ) + 1 / 2) 10) =
      (Except.ok (),
       [Call.setSpeakerSettings (s2l "centerLevel") (min ((-20 : ℚ) + 1 / 2) 10)])
      from rfl,
    run1_ok, show devAllOk.refreshR = Except.ok () from rfl, run1_ok]
  rfl

/-- C5 witness: `SPEAKER_CENTER_UP` from cached value `2` with range
`(-10, 10, 0.5)` requests `min(2 + 0.5, 10) = 2.5`, issues the set-level
call and then the cache refresh; here the one-sided bound agrees with
the clamp. -/
theorem C5_speaker_step_amended_witness :
    sendCmd (s2l "SPEAKER_CENTER_UP") 1 false (some cacheSpeaker) [] devAllOk =
      run1 (set_speaker_level devAllOk (s2l "centerLevel") (min ((2 : ℚ) + 1 / 2) 10))
        (fun _ => run1 (devAllOk.refreshR, [Call.refreshSettings])
          (fun _ => (.ok, [])))
    ∧ min ((2 : ℚ) + 1 / 2) 10 = clampQ ((2 : ℚ) + 1 / 2) (-10) 10 := by
  have h := C5_speaker_step_amended cacheSpeaker devAllOk 1 false []
    (s2l "CENTER_UP") [] [] (s2l "centerLevel") (s2l "Center Level")
    (-10) 10 (1 / 2) 2 (s2l "2") rfl (by simp) rfl rfl rfl
  exact ⟨h.1 rfl, h.2.2.1 (by norm_num) (by norm_num)⟩

/-! ## C1 — INPUT command round-trip -/

/-- The path condition under which `create_simple_commands` encodes a
source through its final labeled-input branch (every earlier guard
false, URI non-empty with the `extInput:` prefix). -/
def usesCatchAll (uri : Str) : Bool :=
  !uri.isEmpty
  && !(sub (s2l "hdmi") uri && sub (s2l "port=") uri)
  && !(sub (s2l "tv") uri || uri == s2l "extInput:tv")
  && !(sub (s2l "btAudio") uri)
  && !(sub (s2l "line") uri)
  && !(sub (s2l "airPlay") uri)
  && !(sub (s2l "usb") uri)
  && pre (s2l "extInput:") uri

/-- No decoder branch can match the empty URI. -/
lemma inputMatches_nil (cmd : Str) : inputMatches cmd [] = false := by
  unfold inputMatches
  simp only [show sub (s2l "tv") ([] : Str) = false from rfl,
    show sub (s2l "hdmi") ([] : Str) = false from rfl,
    show sub (s2l "port=") ([] : Str) = false from rfl,
    show sub (s2l "btAudio") ([] : Str) = false from rfl,
    show sub (s2l "line") ([] : Str) = false from rfl,
    show sub (s2l "airPlay") ([] : Str) = false from rfl,
    show sub (s2l "usb") ([] : Str) = false from rfl,
    show pre (s2l "extInput:") ([] : Str) = false from rfl,
    Bool.and_false, Bool.false_eq_true, if_false]

/-- The decoder skips every source that does not match the command. -/
lemma decode_skip (cmd : Str) (p2 rest : List Source)
    (h : ∀ x ∈ p2, inputMatches cmd (x.source.getD []) = false) :
    get_input_uri_from_command cmd (p2 ++ rest) =
      get_input_uri_from_command cmd rest := by
  induction p2 with
  | nil => rfl
  | cons x p2 ih =>
    rw [List.cons_append]
    show (if inputMatches cmd (x.source.getD []) = true then some (x.source.getD [])
      else get_input_uri_from_command cmd (p2 ++ rest)) =
      get_input_uri_from_command cmd rest
    rw [h x (List.mem_cons_self ..)]
    simp only [Bool.false_eq_true, if_false]
    exact ih (fun y hy => h y (List.mem_cons_of_mem _ hy))

lemma andE {a b : Bool} (h : (a && b) = true) : a = true ∧ b = true := by
  cases a <;> cases b <;> simp_all

lemma orE {a b : Bool} (h : (a || b) = true) : a = true ∨ b = true := by
  cases a <;> cases b <;> simp_all

lemma orFE {a b : Bool} (h : (a || b) = false) : a = false ∧ b = false := by
  cases a <;> cases b <;> simp_all

lemma and2 {a b : Bool} (ha : a = true) (hb : b = true) : (a && b) = true := by
  rw [ha, hb]; rfl

lemma and3 {a b c : Bool} (ha : a = true) (hb : b = true) (hc : c = true) :
    ((a && b) && c) = true := by
  rw [ha, hb, hc]; rfl

/-- A source matched by the encoder matches its own command in the
decoder, up to two caveats: an HDMI source needs its extracted port text
not to contain `INPUT_HDMI` (so the decoder's all-occurrence strip
recovers it), and a labeled source matches exactly when its URI equals
`extInput:` plus the decoder's reconstructed name. -/
lemma encode_self_match (uri cmd : Str)
    (henc : encodeInputCommand uri = some cmd)
    (hhdmi : sub (s2l "hdmi") uri = true → sub (s2l "port=") uri = true →
        sub (s2l "INPUT_HDMI") (portToken uri) = false)
    (hlab : usesCatchAll uri = true →
        uri = s2l "extInput:" ++ decodeLabeledName cmd) :
    inputMatches cmd uri = true := by
  unfold encodeInputCommand at henc
  split_ifs at henc with h0 h1 h2 h3 h4 h5 h6 h7
  · -- HDMI branch
    injection henc with hX
    subst hX
    obtain ⟨hh, hp⟩ := andE h1
    have hnop := hhdmi hh hp
    unfold inputMatches
    split_ifs with g1 g2 g3 g4 g5 g6 g7 <;>
      first
        | rfl
        | (rw [pyReplace_strip (by decide) hnop]; exact portToken_sub hp)
        | exact absurd (and3 (pre_append (s2l "INPUT_HDMI") (portToken uri)) hh hp) g2
  · -- tv branch
    injection henc with hX
    subst hX
    have htv : sub (s2l "tv") uri = true := by
      rcases orE h2 with htv | hbeq
      · exact htv
      · rw [eq_of_beq hbeq]; decide
    have hL := and2 (rfl : (s2l "INPUT_TV" == s2l "INPUT_TV") = true) htv
    unfold inputMatches
    split_ifs with g1 g2 g3 g4 g5 g6 g7 <;>
      first
        | rfl
        | exact absurd hL g1
        | exact absurd g2 Bool.false_ne_true
  · -- btAudio branch
    injection henc with hX
    subst hX
    have hL := and2 (rfl : (s2l "INPUT_BLUETOOTH" == s2l "INPUT_BLUETOOTH") = true) h3
    unfold inputMatches
    split_ifs with g1 g2 g3 g4 g5 g6 g7 <;>
      first
        | rfl
        | exact absurd hL g3
        | exact absurd g1 Bool.false_ne_true
        | exact absurd g2 Bool.false_ne_true
  · -- line branch
    injection henc with hX
    subst hX
    have hL := and2 (rfl : (s2l "INPUT_ANALOG" == s2l "INPUT_ANALOG") = true) h4
    unfold inputMatches
    split_ifs with g1 g2 g3 g4 g5 g6 g7 <;>
      first
        | rfl
        | exact absurd hL g4
        | exact absurd g1 Bool.false_ne_true
        | exact absurd g2 Bool.false_ne_true
        | exact absurd g3 Bool.false_ne_true
  · -- airPlay branch
    injection henc with hX
    subst hX
    have hL := and2 (rfl : (s2l "INPUT_AIRPLAY" == s2l "INPUT_AIRPLAY") = true) h5
    unfold inputMatches
    split_ifs with g1 g2 g3 g4 g5 g6 g7 <;>
      first
        | rfl
        | exact absurd hL g5
        | exact absurd g1 Bool.false_ne_true
        | exact absurd g2 Bool.false_ne_true
        | exact absurd g3 Bool.false_ne_true
        | exact absurd g4 Bool.false_ne_true
  · -- usb branch
    injection henc with hX
    subst hX
    have hL := and2 (rfl : (s2l "INPUT_USB" == s2l "INPUT_USB") = true) h6
    unfold inputMatches
    split_ifs with g1 g2 g3 g4 g5 g6 g7 <;>
      first
        | rfl
        | exact absurd hL g6
        | exact absurd g1 Bool.false_ne_true
        | exact absurd g2 Bool.false_ne_true
        | exact absurd g3 Bool.false_ne_true
        | exact absurd g4 Bool.false_ne_true
        | exact absurd g5 Bool.false_ne_true
  · -- labeled catch-all branch
    injection henc with hX
    subst hX
    simp only [Bool.not_eq_true] at h0 h1 h2 h3 h4 h5 h6
    have hcat : usesCatchAll uri = true := by
      unfold usesCatchAll
      rw [h0, h1, h2, h3, h4, h5, h6, h7]; rfl
    have hl := hlab hcat
    have h2' := orFE h2
    unfold inputMatches
    split_ifs with g1 g2 g3 g4 g5 g6 g7
    · obtain ⟨-, hx⟩ := andE g1
      rw [h2'.1] at hx
    · obtain ⟨hx, hB⟩ := andE g2
      obtain ⟨-, hA⟩ := andE hx
      rw [hA, hB] at h1
      simp at h1
    · obtain ⟨-, hx⟩ := andE g3
      rw [h3] at hx
    · obtain ⟨-, hx⟩ := andE g4
      rw [h4] at hx
    · obtain ⟨-, hx⟩ := andE g5
      rw [h5] at hx
    · obtain ⟨-, hx⟩ := andE g6
      rw [h6] at hx
    · exact beq_iff_eq.mpr hl
    · exact absurd
        (and2 (pre_append (s2l "INPUT_") (foldName (labeledName uri))) h7) g7

/-- C1 (amended): decoding returns the URI of the first source in the
list that matches the command.  A source matched by the hdmi/tv/
bluetooth/analog/airplay/usb encoder branches always matches its own
command (for hdmi, provided the extracted port text does not itself
contain `INPUT_HDMI`); a labeled source matches its own command exactly
when its URI equals `extInput:` plus the decoder's reconstructed name
(underscores to hyphens, lower-cased) — true for `bd-dvd`, false for
`mediaBox`.  Under those conditions, and with no earlier source
matching, decode(encode(uri)) returns exactly the source's URI. -/
theorem C1_input_roundtrip_amended (p2 post : List Source) (s : Source) (cmd : Str)
    (henc : encodeInputCommand (s.source.getD []) = some cmd)
    (hfirst : ∀ x ∈ p2, inputMatches cmd (x.source.getD []) = false)
    (hhdmi : sub (s2l "hdmi") (s.source.getD []) = true →
        sub (s2l "port=") (s.source.getD []) = true →
        sub (s2l "INPUT_HDMI") (portToken (s.source.getD [])) = false)
    (hlab : usesCatchAll (s.source.getD []) = true →
        s.source.getD [] = s2l "extInput:" ++ decodeLabeledName cmd) :
    get_input_uri_from_command cmd (p2 ++ s :: post) =
      some (s.source.getD []) := by
  rw [decode_skip cmd p2 _ hfirst]
  have hm := encode_self_match (s.source.getD []) cmd henc hhdmi hlab
  show (if inputMatches cmd (s.source.getD []) = true then some (s.source.getD [])
    else get_input_uri_from_command cmd post) = some (s.source.getD [])
  rw [hm]
  rfl

/-- The labeled source `extInput:bd-dvd` (name survives the folding
round-trip). -/
def srcBdDvd : Source := ⟨some (s2l "extInput:bd-dvd"), some (s2l "BD/DVD")⟩

/-- The labeled source `extInput:mediaBox` (camel-case name, destroyed
by the upper-then-lower folding). -/
def srcMediaBox : Source := ⟨some (s2l "extInput:mediaBox"), some (s2l "Media Box")⟩

/-- C1 counterexample: the discovered source `extInput:mediaBox` (one of
the labeled inputs the source file itself names) is encoded by
`create_simple_commands` as `INPUT_MEDIABOX`, but
`get_input_uri_from_command` reconstructs `extInput:mediabox`, the
literal match fails, and decoding returns `none` instead of the original
URI: the round-trip does not hold for every discovered source. -/
theorem C1_roundtrip_counterexample :
    create_simple_commands [srcMediaBox] initCache =
      some (baseCommands ++ [s2l "INPUT_MEDIABOX", s2l "REFRESH_SETTINGS"])
    ∧ encodeInputCommand (s2l "extInput:mediaBox") = some (s2l "INPUT_MEDIABOX")
    ∧ get_input_uri_from_command (s2l "INPUT_MEDIABOX") [srcMediaBox] = none
    ∧ (none : Option Str) ≠ some (s2l "extInput:mediaBox") := by
  refine ⟨rfl, rfl, rfl, by decide⟩

/-- C1 witness: `extInput:bd-dvd` encodes to `INPUT_BD_DVD` and decodes
back to exactly its URI. -/
theorem C1_input_roundtrip_amended_witness :
    get_input_uri_from_command (s2l "INPUT_BD_DVD") [srcBdDvd] =
      some (s2l "extInput:bd-dvd") :=
  C1_input_roundtrip_amended [] [] srcBdDvd (s2l "INPUT_BD_DVD") rfl
    (by simp) (fun h _ => absurd h (by decide)) (fun _ => rfl)

/-! ## C10 — the decoder never fabricates a URI -/

/-- C10: whatever the command and source list,
`get_input_uri_from_command` returns `none` or the `source` field of one
of the listed sources, never a fabricated URI. -/
theorem C10_decode_no_fabrication (command uri : Str) (sources : List Source)
    (h : get_input_uri_from_command command sources = some uri) :
    ∃ s ∈ sources, s.source = some uri := by
  induction sources with
  | nil => simp [get_input_uri_from_command] at h
  | cons s rest ih =>
    have h2 : (if inputMatches command (s.source.getD []) = true
        then some (s.source.getD [])
        else get_input_uri_from_command command rest) = some uri := h
    by_cases hm : inputMatches command (s.source.getD []) = true
    · rw [if_pos hm] at h2
      have huri : s.source.getD [] = uri := Option.some.inj h2
      cases hs : s.source with
      | some u =>
        refine ⟨s, List.mem_cons_self .., ?_⟩
        rw [hs]
        rw [hs] at huri
        simpa using huri
      | none =>
        rw [hs] at huri hm
        exact absurd hm (by simp [inputMatches_nil])
    · rw [if_neg hm] at h2
      obtain ⟨s2, hmem, hs2⟩ := ih h2
      exact ⟨s2, List.mem_cons_of_mem _ hmem, hs2⟩

/-- The generic source `extInput:tv`. -/
def srcTv : Source := ⟨some (s2l "extInput:tv"), none⟩

/-- C10 witness: decoding `INPUT_TV` against `[extInput:tv]` returns a
URI that is the `source` field of a listed entry. -/
theorem C10_decode_no_fabrication_witness :
    ∃ s ∈ [srcTv], s.source = some (s2l "extInput:tv") :=
  C10_decode_no_fabrication (s2l "INPUT_TV") (s2l "extInput:tv") [srcTv] rfl

end Sony
